import Mathlib

/-!
# Verification of the AI-Drawing-Inspector reconciliation core

Shallow embedding of the deterministic comparison pipeline of the
AI-Drawing-Inspector repository (Python), together with theorems that settle
the specification claims about it.

Embedded modules (translated from the Python source, file by file):
* `ai_inspector/extractors/canonicalize.py`   — OCR text canonicalizer
* `ai_inspector/extractors/unit_normalizer.py`— unit detection / normalization
* `ai_inspector/extractors/validator.py`      — callout validation and repair
* `ai_inspector/schemas/callout_schema.py`    — validation schema tables
* `ai_inspector/comparison/quantity_expander.py` — quantity expansion
* `ai_inspector/comparison/matcher.py`        — feature matching and scoring
* `ai_inspector/comparison/diff_result.py`    — diff aggregation
* `ai_inspector/detection/classes.py`         — FUTURE_TYPES skip list
* `ai_inspector/config.py`                    — tolerance configuration

Modelling conventions:
* Python numbers (int/float) are embedded as `ℤ`/`ℚ`.  All tolerance
  comparisons in the source are on small decimal literals; `ℚ` gives their
  exact decimal semantics.
* Python dicts are association lists (`List (String × Val)`) with first-match
  lookup and in-place update, mirroring dict key semantics.
* Fallible conversions (`int(x)`, `float(x)`) return `Option`.
-/

namespace Insp

/-- Embedded Python value, as stored in callout dictionaries.
`vnone` is Python `None`; `vdict` covers nested dicts such as thread specs. -/
inductive Val where
  | vnone  : Val
  | vbool  : Bool → Val
  | vint   : ℤ → Val
  | vfloat : ℚ → Val
  | vstr   : String → Val
  | vdict  : List (String × Val) → Val
deriving Repr

mutual

/-- Boolean equality on embedded Python values. -/
def valBEq : Val → Val → Bool
  | .vnone, .vnone => true
  | .vbool a, .vbool b => a == b
  | .vint a, .vint b => a == b
  | .vfloat a, .vfloat b => a == b
  | .vstr a, .vstr b => a == b
  | .vdict a, .vdict b => kvsBEq a b
  | _, _ => false

/-- Boolean equality on embedded dict entry lists. -/
def kvsBEq : List (String × Val) → List (String × Val) → Bool
  | [], [] => true
  | (k1, v1) :: r1, (k2, v2) :: r2 => k1 == k2 && valBEq v1 v2 && kvsBEq r1 r2
  | _, _ => false

end

instance : BEq Val := ⟨valBEq⟩

/-- A Python dict with string keys (association list, first match wins). -/
abbrev PyDict := List (String × Val)

/-- Python `d.get(k)`-style lookup: first binding of key `k`, if any. -/
def dictFind : PyDict → String → Option Val
  | [], _ => none
  | (k', v) :: rest, k => if k' = k then some v else dictFind rest k

/-- Python `d.get(k, default)`: value of `k`, or `default` when the key is absent. -/
def dictGetD (d : PyDict) (k : String) (default : Val) : Val :=
  (dictFind d k).getD default

/-- Python `d.get(k)`: value of `k`, or `None` when the key is absent. -/
def dictGet (d : PyDict) (k : String) : Val :=
  dictGetD d k .vnone

/-- Python `k in d`: Python key-membership test. -/
def dictHas (d : PyDict) (k : String) : Bool :=
  (dictFind d k).isSome

/-- Python `d[k] = v`: update the first binding of `k` in place, else append.
Mirrors Python dict assignment (existing keys keep their position). -/
def dictSet : PyDict → String → Val → PyDict
  | [], k, v => [(k, v)]
  | (k', v') :: rest, k, v =>
    if k' = k then (k', v) :: rest else (k', v') :: dictSet rest k v

/-- Python truthiness (`bool(x)`) for embedded values. -/
def pyTruthy : Val → Bool
  | .vnone => false
  | .vbool b => b
  | .vint n => n ≠ 0
  | .vfloat q => q ≠ 0
  | .vstr s => s ≠ ""
  | .vdict d => !d.isEmpty

/-- Floor of a rational, computed with flooring integer division so the
kernel can evaluate it. -/
def ratFloor (q : ℚ) : ℤ := q.num.fdiv (q.den : ℤ)

/-- Truncation toward zero, the semantics of Python `int()` on a float. -/
def truncRat (q : ℚ) : ℤ :=
  if 0 ≤ q then ratFloor q else -ratFloor (-q)

/-- Characters Python treats as whitespace in `str.strip` and `\s`
(ASCII whitespace plus NEL and NBSP; exotic Unicode space classes that never
occur in this pipeline's data are not enumerated). -/
def isPySpace (c : Char) : Bool :=
  c = ' ' ∨ c = '\t' ∨ c = '\n' ∨ c = '\r' ∨ c = '\x0b' ∨ c = '\x0c' ∨
  c = '\x85' ∨ c = '\xa0'

def isDigitChar (c : Char) : Bool := '0' ≤ c ∧ c ≤ '9'

def digitVal (c : Char) : ℕ := c.toNat - '0'.toNat

/-- Natural number denoted by a digit string (most significant first). -/
def digitsToNat (ds : List Char) : ℕ :=
  ds.foldl (fun acc c => 10 * acc + digitVal c) 0

/-- Python `str.strip()` on a character list. -/
def pyStripChars (s : List Char) : List Char :=
  ((s.dropWhile isPySpace).reverse.dropWhile isPySpace).reverse

/-- Parse an optionally signed integer literal, the core of Python `int(str)`.
Accepts surrounding whitespace; rejects anything else (ValueError → `none`). -/
def parseIntString (s : List Char) : Option ℤ :=
  let t := pyStripChars s
  let (sign, t) : ℤ × List Char :=
    match t with
    | '-' :: rest => (-1, rest)
    | '+' :: rest => (1, rest)
    | rest => (1, rest)
  if t ≠ [] ∧ t.all isDigitChar then
    some (sign * (digitsToNat t : ℤ))
  else
    none

/-- Parse a decimal float literal, the core of Python `float(str)`:
optional sign, then `digits[.digits]`, `.digits` or `digits.`, with an
optional `e`/`E` exponent.  `inf`/`nan` forms are rejected (they never occur
in this pipeline). -/
def parseFloatString (s : List Char) : Option ℚ :=
  let t := pyStripChars s
  let (sign, t) : ℚ × List Char :=
    match t with
    | '-' :: rest => (-1, rest)
    | '+' :: rest => (1, rest)
    | rest => (1, rest)
  let intPart := t.takeWhile isDigitChar
  let t1 := t.dropWhile isDigitChar
  let (fracPart, t2) : List Char × List Char :=
    match t1 with
    | '.' :: rest => (rest.takeWhile isDigitChar, rest.dropWhile isDigitChar)
    | rest => ([], rest)
  -- at least one digit overall, and a '.' must have been present if intPart
  -- and fracPart are both drawn on
  if intPart = [] ∧ fracPart = [] then none
  else if intPart ≠ [] ∧ t1 = t2 ∧ t1 ≠ [] ∧ t1.head? ≠ some 'e' ∧ t1.head? ≠ some 'E' then
    none  -- digits followed by junk that is not '.', exponent or end
  else
    let mant : ℚ := (digitsToNat intPart : ℚ) +
      (digitsToNat fracPart : ℚ) / ((10 : ℚ) ^ fracPart.length)
    match t2 with
    | [] => some (sign * mant)
    | 'e' :: rest | 'E' :: rest =>
      let (esign, rest) : ℤ × List Char :=
        match rest with
        | '-' :: r => (-1, r)
        | '+' :: r => (1, r)
        | r => (1, r)
      if rest ≠ [] ∧ rest.all isDigitChar then
        let e : ℤ := esign * (digitsToNat rest : ℤ)
        some (sign * mant * (10 : ℚ) ^ e)
      else none
    | _ => none

/-- Python `int(x)` on an embedded value (`none` models TypeError/ValueError). -/
def pyToInt : Val → Option ℤ
  | .vint n => some n
  | .vfloat q => some (truncRat q)
  | .vbool b => some (if b then 1 else 0)
  | .vstr s => parseIntString s.data
  | _ => none

/-- Python `float(x)` on an embedded value (`none` models TypeError/ValueError). -/
def pyToFloat : Val → Option ℚ
  | .vint n => some (n : ℚ)
  | .vfloat q => some q
  | .vbool b => some (if b then 1 else 0)
  | .vstr s => parseFloatString s.data
  | _ => none

/-- Python `isinstance(x, (int, float))` — Python numeric test (bool is an int
subclass in Python; the source's numeric fields never carry bools, and the
matcher accessors treat them numerically either way). -/
def isNumVal : Val → Bool
  | .vint _ => true
  | .vfloat _ => true
  | .vbool _ => true
  | _ => false

/-- Numeric value of an `int`/`float` (`float(d)` after an isinstance check). -/
def numVal : Val → Option ℚ
  | .vint n => some (n : ℚ)
  | .vfloat q => some q
  | .vbool b => some (if b then 1 else 0)
  | _ => none

/-- Round half to even at integer precision (Python `round` tie behavior). -/
def roundHalfEven (q : ℚ) : ℤ :=
  let f := ratFloor q
  let r := q - (f : ℚ)
  if r < 1/2 then f
  else if 1/2 < r then f + 1
  else if f % 2 = 0 then f else f + 1

/-- Python `round(x, n)` for decimal places `n`, on exact rationals. -/
def pyRound (q : ℚ) (n : ℕ) : ℚ :=
  (roundHalfEven (q * (10 : ℚ) ^ n) : ℚ) / (10 : ℚ) ^ n

/-- Python fixed-point float formatting (`f"{q:.prec f}"`), half-even ties. -/
def pyFormatFixed (q : ℚ) (prec : ℕ) : String :=
  let neg := q < 0
  let scaled := (roundHalfEven (|q| * (10 : ℚ) ^ prec)).toNat
  let s := toString scaled
  let s := if s.length < prec + 1 then
      String.mk (List.replicate (prec + 1 - s.length) '0') ++ s
    else s
  let ip := s.dropRight prec
  let fp := s.takeRight prec
  (if neg then "-" else "") ++ ip ++ (if prec = 0 then "" else "." ++ fp)

/-- Python sign-forcing fixed formatting (`f"{q:+.prec f}"`). -/
def pyFormatSigned (q : ℚ) (prec : ℕ) : String :=
  if q < 0 then pyFormatFixed q prec else "+" ++ pyFormatFixed q prec

/-- Least `k ≤ 64` with `q.den ∣ 10^k` (every float in the pipeline is a short
decimal, so the bound is never reached). -/
def decExponent (q : ℚ) : Option ℕ :=
  (List.range 65).find? fun k => (10 : ℕ) ^ k % q.den = 0

/-- Python `str(x)` for a float value: decimal expansion with at least one
fractional digit (`str(10.0) = "10.0"`).  Models the repr of the short
decimal floats this pipeline works with; non-decimal rationals (which cannot
arise from the embedded parsers) fall back to a fraction rendering. -/
def pyStrFloat (q : ℚ) : String :=
  match decExponent q with
  | some 0 => toString q.num ++ ".0"
  | some k =>
    let a := (|q| * (10 : ℚ) ^ k).num.toNat
    let s := toString a
    let s := if s.length < k + 1 then
        String.mk (List.replicate (k + 1 - s.length) '0') ++ s
      else s
    (if q < 0 then "-" else "") ++ s.dropRight k ++ "." ++ s.takeRight k
  | none => toString q.num ++ "/" ++ toString q.den

/-- Python `str(x)` for embedded values (used for dict fallback rendering). -/
def pyStrVal : Val → String
  | .vnone => "None"
  | .vbool b => if b then "True" else "False"
  | .vint n => toString n
  | .vfloat q => pyStrFloat q
  | .vstr s => s
  | .vdict _ => "\x7b...\x7d"

/-- Python `repr(x)`-style rendering of a dict (the source only ever uses it
as a human-readable fallback string; nested dict contents are elided). -/
def pyReprDict (d : PyDict) : String :=
  let entry := fun (kv : String × Val) =>
    "'" ++ kv.1 ++ "': " ++
      (match kv.2 with
        | .vstr s => "'" ++ s ++ "'"
        | v => pyStrVal v)
  "\x7b" ++ String.intercalate ", " (d.map entry) ++ "\x7d"

/-! ## Configuration (`ai_inspector/config.py`)

Only the comparison-relevant fields of `Config` are embedded; rendering and
model-loading settings are outside the reconciliation core. -/

structure Config where
  hole_tolerance_inches : ℚ := 0.015
  thread_tolerance_mm : ℚ := 0.1
  pitch_tolerance : ℚ := 0.01
  fillet_tolerance_inches : ℚ := 0.015
  chamfer_tolerance_inches : ℚ := 0.015
  ocr_qwen_match_tolerance_inches : ℚ := 0.01
  match_hole_tapped_equivalence : Bool := true
  hole_tapped_equivalence_tolerance_inches : ℚ := 0.02
  match_extra_missing_correlation_tolerance_inches : ℚ := 0.02

/-- The module-level `default_config = Config()` instance. -/
def default_config : Config := {}

/-! ## SolidWorks features (`ai_inspector/comparison/sw_extractor.py`)

The `SwFeature` dataclass.  The JSON extractor itself
(`SwFeatureExtractor.extract`) is upstream of every claim here and is kept
abstract where referenced (`compare_drawing` takes it as a parameter). -/

structure SwFeature where
  feature_type : String
  diameter_inches : Option ℚ := none
  depth_inches : Option ℚ := none
  radius_inches : Option ℚ := none
  thread : Option PyDict := none
  quantity : ℤ := 1
  location : String := ""
  raw_data : PyDict := []
  source : String := "solidworks"
deriving Repr

/-! ## Quantity expansion (`ai_inspector/comparison/quantity_expander.py`) -/

/-- The quantity-clamping prologue shared by both expanders:
`int(qty)` with ValueError/TypeError falling back to 1, then clamping
non-positive values to 1. -/
def clampQty (v : Val) : ℤ :=
  match pyToInt v with
  | some n => if n < 1 then 1 else n
  | none => 1

/-- Expansion of a single drawing callout (loop body of
`expand_drawing_callouts`).  A dict copy is a copy of the association list;
`deepcopy` coincides with it in this model because values are immutable. -/
def expandCalloutOne (callout : PyDict) : List PyDict :=
  let qty := clampQty (dictGetD callout "quantity" (.vint 1))
  if qty = 1 then
    let instanceD := dictSet (dictSet callout "_instance_index" (.vint 0))
      "_original_quantity" (.vint 1)
    [instanceD]
  else
    (List.range qty.toNat).map fun (i : ℕ) =>
      dictSet (dictSet (dictSet callout "quantity" (.vint 1))
        "_instance_index" (.vint (i : ℤ))) "_original_quantity" (.vint qty)

/-- Function `expand_drawing_callouts`: expand drawing callouts by their quantity. -/
def expand_drawing_callouts (callouts : List PyDict) : List PyDict :=
  (callouts.map expandCalloutOne).flatten

/-- Expansion of a single SolidWorks feature (loop body of
`expand_sw_features`). -/
def expandSwOne (feat : SwFeature) : List SwFeature :=
  let qty := clampQty (.vint feat.quantity)
  if qty = 1 then
    [feat]
  else
    (List.range qty.toNat).map fun i =>
      { feature_type := feat.feature_type
        diameter_inches := feat.diameter_inches
        depth_inches := feat.depth_inches
        radius_inches := feat.radius_inches
        thread := feat.thread
        quantity := 1
        location := if feat.location ≠ "" then
            feat.location ++ "[" ++ toString i ++ "]"
          else "instance_" ++ toString i
        raw_data := feat.raw_data
        source := feat.source }

/-- Function `expand_sw_features`: expand SolidWorks features by their quantity. -/
def expand_sw_features (features : List SwFeature) : List SwFeature :=
  (features.map expandSwOne).flatten

/-! ## Canonicalizer (`ai_inspector/extractors/canonicalize.py`)

Each `re.sub`/`str.replace` pass is embedded through a single driver,
`runSub`, that replays the engine's scan: at every position try the pattern;
on a match emit the replacement and resume at the match end, otherwise emit
one character and advance.  A pattern is a function from the current suffix
to `Option (replacement, number of characters consumed)`. -/

/-- A match attempt at the current position: replacement text and the number
of characters of the suffix the match consumes (always ≥ 1 here). -/
abbrev SubMatch := List Char → Option (List Char × ℕ)

/-- Global substitution driver replaying `re.sub` scanning: try the pattern
at each position, emit replacements, resume scanning at each match end.
Structural recursion on a fuel argument so that the kernel can evaluate it;
every step consumes at least one character, so fuel = string length never
runs out. -/
def runSubGo (f : SubMatch) : ℕ → List Char → List Char
  | 0, s => s
  | _ + 1, [] => []
  | fuel + 1, c :: cs =>
    match f (c :: cs) with
    | some (rep, consumed) => rep ++ runSubGo f fuel (cs.drop (consumed - 1))
    | none => c :: runSubGo f fuel cs

def runSub (f : SubMatch) (s : List Char) : List Char :=
  runSubGo f s.length s

/-- Literal-pattern match (also the semantics of `str.replace`). -/
def litMatch (pat rep : List Char) : SubMatch := fun s =>
  if pat ≠ [] ∧ pat.isPrefixOf s then some (rep, pat.length) else none

/-- Python `s.replace(pat, rep)` (left-to-right, non-overlapping). -/
def pyReplace (pat rep : String) (s : List Char) : List Char :=
  runSub (litMatch pat.data rep.data) s

/-- Match for `lead{…}` where `…` is `[^}]*`: strip the wrapper, keep the
content (used for `_{…}`, `^{…}` and `\text{…}`). -/
def braceGroupMatch (lead : List Char) : SubMatch := fun s =>
  let pre := lead ++ ['{']
  if pre.isPrefixOf s then
    let rest := s.drop pre.length
    let content := rest.takeWhile (· ≠ '}')
    match rest.drop content.length with
    | '}' :: _ => some (content, pre.length + content.length + 1)
    | _ => none
  else none

/-- Match for `\$\$([^$]*)\$\$ -> \1`. -/
def dollars2Match : SubMatch := fun s =>
  match s with
  | '$' :: '$' :: rest =>
    let content := rest.takeWhile (· ≠ '$')
    (match rest.drop content.length with
      | '$' :: '$' :: _ => some (content, content.length + 4)
      | _ => none)
  | _ => none

/-- Match for `\$([^$]*)\$ -> \1`. -/
def dollars1Match : SubMatch := fun s =>
  match s with
  | '$' :: rest =>
    let content := rest.takeWhile (· ≠ '$')
    (match rest.drop content.length with
      | '$' :: _ => some (content, content.length + 2)
      | _ => none)
  | _ => none

/-- Match for `\\[Pp]hi -> ⌀` (ordered alternation of the two case forms). -/
def phiMatch : SubMatch := fun s =>
  litMatch "\\Phi".data "⌀".data s <|> litMatch "\\phi".data "⌀".data s

/-- Match for `\\mathcal\{[Oo]\} -> ⌀`. -/
def mathcalMatch : SubMatch := fun s =>
  litMatch ("\\mathcal".data ++ ['{', 'O', '}']) "⌀".data s <|>
  litMatch ("\\mathcal".data ++ ['{', 'o', '}']) "⌀".data s

/-- Match for `\\deg(?:ree)? -> °` (greedy optional suffix). -/
def degMatch : SubMatch := fun s =>
  litMatch "\\degree".data "°".data s <|> litMatch "\\deg".data "°".data s

/-- Match for `\\qquad|\\quad -> ''` (ordered alternation). -/
def quadMatch : SubMatch := fun s =>
  litMatch "\\qquad".data [] s <|> litMatch "\\quad".data [] s

/-- Match for `\\left[\(\[\{] -> ''`. -/
def leftMatch : SubMatch := fun s =>
  if "\\left".data.isPrefixOf s then
    match s.drop 5 with
    | c :: _ => if c = '(' ∨ c = '[' ∨ c = '{' then some ([], 6) else none
    | [] => none
  else none

/-- Match for `\\right[\)\]\}] -> ''`. -/
def rightMatch : SubMatch := fun s =>
  if "\\right".data.isPrefixOf s then
    match s.drop 6 with
    | c :: _ => if c = ')' ∨ c = ']' ∨ c = '}' then some ([], 7) else none
    | [] => none
  else none

/-- Match for `\\frac\{\s*([0-9]+)\s*\}\{\s*([0-9]+)\s*\} -> \1/\2`. -/
def fracMatch : SubMatch := fun s =>
  let pre := "\\frac".data ++ ['{']
  if pre.isPrefixOf s then
    let r0 := s.drop 6
    let w1 := r0.takeWhile isPySpace
    let r1 := r0.drop w1.length
    let d1 := r1.takeWhile isDigitChar
    let r2 := r1.drop d1.length
    if d1 = [] then none else
    let w2 := r2.takeWhile isPySpace
    match r2.drop w2.length with
    | '}' :: '{' :: r4 =>
      let w3 := r4.takeWhile isPySpace
      let r5 := r4.drop w3.length
      let d2 := r5.takeWhile isDigitChar
      let r6 := r5.drop d2.length
      if d2 = [] then none else
      let w4 := r6.takeWhile isPySpace
      (match r6.drop w4.length with
        | '}' :: _ => some (d1 ++ '/' :: d2,
            6 + w1.length + d1.length + w2.length + 2 + w3.length + d2.length +
              w4.length + 1)
        | _ => none)
    | _ => none
  else none

def isAsciiLetter (c : Char) : Bool :=
  ('a' ≤ c ∧ c ≤ 'z') ∨ ('A' ≤ c ∧ c ≤ 'Z')

/-- Match for the generic cleanup `\\[a-zA-Z]+ -> ''`. -/
def backslashCmdMatch : SubMatch := fun s =>
  match s with
  | '\\' :: rest =>
    let letters := rest.takeWhile isAsciiLetter
    if letters = [] then none else some ([], 1 + letters.length)
  | _ => none

/-- Match for the European decimal comma `(\d),(\d) -> \1.\2`. -/
def commaDecimalMatch : SubMatch := fun s =>
  match s with
  | d1 :: ',' :: d2 :: _ =>
    if isDigitChar d1 ∧ isDigitChar d2 then some ([d1, '.', d2], 3) else none
  | _ => none

/-- LATEX_REPLACEMENTS: the ordered list of LaTeX-cleanup passes. -/
def latexPasses : List (List Char → List Char) :=
  [ runSub dollars2Match,
    runSub dollars1Match,
    runSub phiMatch,
    pyReplace "\\varphi" "⌀",
    pyReplace "\\varnothing" "⌀",
    pyReplace "\\oslash" "⌀",
    pyReplace "\\emptyset" "⌀",
    pyReplace "\\theta" "⌀",
    runSub mathcalMatch,
    pyReplace "\\diameter" "⌀",
    pyReplace "\\pm" "±",
    runSub degMatch,
    pyReplace "\\circ" "°",
    pyReplace "\\times" "x",
    runSub (braceGroupMatch ['_']),
    runSub (braceGroupMatch ['^']),
    runSub fracMatch,
    runSub leftMatch,
    runSub rightMatch,
    pyReplace "\\int" "",
    runSub quadMatch,
    pyReplace "\\%" "%",
    runSub (braceGroupMatch "\\text".data),
    runSub backslashCmdMatch,
    runSub commaDecimalMatch ]

/-- SYMBOL_MAP: ordered character/sequence alias table (dict order; the two
keys repeated in the source literal appear once, as dict semantics dictate).
Every diameter variant goes to U+2300. -/
def symbolMapPairs : List (String × String) :=
  [ ("Ø", "⌀"), ("ø", "⌀"), ("∅", "⌀"),
    ("O/", "⌀"), ("0/", "⌀"),
    ("φ", "⌀"), ("ϕ", "⌀"), ("θ", "⌀"),
    ("âŒ€", "⌀"), ("Ã˜", "⌀"),
    ("Ã¸", "⌀"),
    ("″", "\""), ("‶", "\""), ("˝", "\""),
    ("×", "x"), ("✕", "x"), ("✖", "x"), ("⨯", "x"),
    ("+/-", "±"), ("+/−", "±"), ("Â±", "±"),
    ("˚", "°"), ("º", "°"), ("Â°", "°"),
    ("⌴", "⌴"), ("⌵", "⌵"),
    ("–", "-"), ("—", "-"), ("−", "-") ]

/-- Match for whitespace collapsing `[ \t]+ -> ' '`. -/
def spaceCollapseMatch : SubMatch := fun s =>
  match s with
  | c :: cs =>
    if c = ' ' ∨ c = '\t' then
      some ([' '], 1 + (cs.takeWhile (fun d => d = ' ' ∨ d = '\t')).length)
    else none
  | [] => none

/-- Match for the quantity-prefix rule `(\d+)\s*[xX×]\s+ -> \1X `. -/
def quantityPrefixMatch : SubMatch := fun s =>
  let ds := s.takeWhile isDigitChar
  if ds = [] then none else
  let r1 := s.drop ds.length
  let w1 := r1.takeWhile isPySpace
  match r1.drop w1.length with
  | c :: rest =>
    if c = 'x' ∨ c = 'X' ∨ c = '×' then
      let w2 := rest.takeWhile isPySpace
      if w2 = [] then none
      else some (ds ++ ['X', ' '], ds.length + w1.length + 1 + w2.length)
    else none
  | [] => none

/-- Largest index `k ≥ 1` inside `run` holding a newline — the backtracking
target of `\s+$` in MULTILINE mode ( `$` matches just before a `'\n'`). -/
def lastNewlineIdx (run : List Char) : Option ℕ :=
  ((List.range run.length).filter fun k => 1 ≤ k ∧ run.getD k ' ' = '\n').getLast?

/-- The per-line strip pass `re.sub(r'^\s+|\s+$', '', s, flags=MULTILINE)`:
`prev` is the character just before the scan position in the *original*
string (None at the start), which decides `^`. -/
def stripLinesGo (fuel : ℕ) (prev : Option Char) (s : List Char) : List Char :=
  match fuel, s with
  | 0, s => s
  | _ + 1, [] => []
  | fuel + 1, c :: cs =>
    let lineStart := prev = none ∨ prev = some '\n'
    if lineStart ∧ isPySpace c then
      -- branch `^\s+`: consume the maximal whitespace run
      let w := cs.takeWhile isPySpace
      stripLinesGo fuel (some ((c :: w).getLastD c)) (cs.drop w.length)
    else if isPySpace c then
      -- branch `\s+$`: longest whitespace prefix whose end sits before '\n'
      -- or at the end of the string
      let run := c :: cs.takeWhile isPySpace
      if cs.drop (run.length - 1) = [] then
        []
      else
        match lastNewlineIdx run with
        | some k => stripLinesGo fuel (some (run.getD (k - 1) c)) (cs.drop (k - 1))
        | none => c :: stripLinesGo fuel (some c) cs
    else
      c :: stripLinesGo fuel (some c) cs

/-- The per-line strip pass, fuel instantiated with the string length. -/
def stripLines (prev : Option Char) (s : List Char) : List Char :=
  stripLinesGo s.length prev s

/-- Match for the leading-decimal OCR repair
`([⌀])\s*(\d{2,3})(?![\d./])` → `⌀.digits` (`_repair_missing_leading_decimals`). -/
def leadingDecimalMatch : SubMatch := fun s =>
  match s with
  | '⌀' :: rest =>
    let w := rest.takeWhile isPySpace
    let r1 := rest.drop w.length
    let digs := r1.takeWhile isDigitChar
    if digs.length = 2 ∨ digs.length = 3 then
      match r1.drop digs.length with
      | [] => some ('⌀' :: '.' :: digs, 1 + w.length + digs.length)
      | ch :: _ =>
        if isDigitChar ch ∨ ch = '.' ∨ ch = '/' then none
        else some ('⌀' :: '.' :: digs, 1 + w.length + digs.length)
    else none
  | _ => none

/-- Function `_repair_missing_leading_decimals`. -/
def repair_missing_leading_decimals (s : List Char) : List Char :=
  runSub leadingDecimalMatch s

/-- Function `canonicalize`: normalize OCR text for downstream parsing.
Steps in source order: LaTeX cleanup, symbol map, whitespace regexes,
leading-decimal repair, final strip. -/
def canonicalize (text : String) : String :=
  if text = "" then "" else
  let r0 := latexPasses.foldl (fun acc f => f acc) text.data
  let r1 := symbolMapPairs.foldl (fun acc p => pyReplace p.1 p.2 acc) r0
  let r2 := runSub spaceCollapseMatch r1
  let r3 := runSub quantityPrefixMatch r2
  let r4 := stripLines none r3
  let r5 := repair_missing_leading_decimals r4
  String.mk (pyStripChars r5)

/-! ## Unit normalizer (`ai_inspector/extractors/unit_normalizer.py`)

The drawing-level unit patterns carry no word boundaries and are embedded
through a small Brzozowski-derivative regex engine; the callout-level
patterns use `\b` and are embedded as direct positional scanners whose
backtracking was worked out case by case from the patterns. -/

/-- Regular expressions over characters (enough for the title-block
patterns: no captures, no anchors, no boundaries). -/
inductive RE where
  | eps  : RE
  | emp  : RE
  | chr  : (Char → Bool) → RE
  | cat  : RE → RE → RE
  | alt  : RE → RE → RE
  | star : RE → RE

/-- Smart concatenation (keeps derivative terms small). -/
def catS : RE → RE → RE
  | .emp, _ => .emp
  | .eps, r => r
  | a, .eps => a
  | a, b => if let .emp := b then .emp else .cat a b

/-- Smart alternation (keeps derivative terms small). -/
def altS : RE → RE → RE
  | .emp, r => r
  | a, .emp => a
  | a, b => .alt a b

def nullable : RE → Bool
  | .eps => true
  | .emp => false
  | .chr _ => false
  | .cat a b => nullable a && nullable b
  | .alt a b => nullable a || nullable b
  | .star _ => true

/-- Brzozowski derivative. -/
def deriv : RE → Char → RE
  | .eps, _ => .emp
  | .emp, _ => .emp
  | .chr p, c => if p c then .eps else .emp
  | .cat a b, c =>
    if nullable a then altS (catS (deriv a c) b) (deriv b c)
    else catS (deriv a c) b
  | .alt a b, c => altS (deriv a c) (deriv b c)
  | .star a, c => catS (deriv a c) (.star a)

/-- Whole-string match. -/
def reMatches (r : RE) (s : List Char) : Bool :=
  nullable (s.foldl deriv r)

/-- Unanchored search, the semantics of `re.search` for boundary-free
patterns: some substring matches. -/
def reSearch (r : RE) (s : List Char) : Bool :=
  reMatches (catS (.star (.chr fun _ => true)) (catS r (.star (.chr fun _ => true)))) s

/-- One case-insensitive literal character (`re.IGNORECASE` on ASCII). -/
def ciChr (c : Char) : RE := .chr fun d => d = c.toLower ∨ d = c.toUpper

/-- Case-insensitive literal. -/
def ciLit (s : String) : RE := s.data.foldr (fun c r => catS (ciChr c) r) .eps

def exChr (c : Char) : RE := .chr (· = c)

/-- Pattern `\s` (same whitespace class as `isPySpace`). -/
def reWs : RE := .chr isPySpace

/-- Pattern `\s+`. -/
def reWsPlus : RE := .cat reWs (.star reWs)

/-- Pattern `(?:r)?`. -/
def reOpt (r : RE) : RE := .alt .eps r

/-- Pattern `.` (any char except newline). -/
def reDot : RE := .chr (· ≠ '\n')

/-- Shared tail `(?:MILLI)?MET(?:ER|RE)S?` of the metric patterns. -/
def reMeters : RE :=
  catS (reOpt (ciLit "MILLI")) (catS (ciLit "MET")
    (catS (.alt (ciLit "ER") (ciLit "RE")) (reOpt (ciLit "S"))))

/-- INCH_PATTERNS from the source, in order. -/
def INCH_PATTERNS : List RE :=
  [ catS (ciLit "DIMENSION") (catS (reOpt (ciLit "S")) (catS reWsPlus
      (catS (reOpt (catS (ciLit "ARE") reWsPlus)) (catS (ciLit "IN")
        (catS reWsPlus (ciLit "INCHES")))))),
    catS (ciLit "UNLESS") (catS reWsPlus (catS (ciLit "OTHERWISE")
      (catS reWsPlus (catS (.alt (ciLit "SPECIFIED") (ciLit "NOTED"))
        (catS (.star reDot) (ciLit "INCHES")))))),
    catS (ciLit "ALL") (catS reWsPlus (catS (ciLit "DIMENSION")
      (catS (reOpt (ciLit "S")) (catS reWsPlus
        (catS (reOpt (catS (ciLit "IN") reWsPlus)) (ciLit "INCHES")))))),
    catS (ciLit "UNIT") (catS (reOpt (ciLit "S")) (catS (.star reWs)
      (catS (exChr ':') (catS (.star reWs) (ciLit "INCH"))))),
    catS (ciLit "INCH") (catS (reOpt (ciLit "ES"))
      (reOpt (catS (.star reWs) (catS (exChr '(') (catS (ciLit "IN") (exChr ')')))))) ]

/-- METRIC_PATTERNS from the source, in order. -/
def METRIC_PATTERNS : List RE :=
  [ catS (ciLit "DIMENSION") (catS (reOpt (ciLit "S")) (catS reWsPlus
      (catS (reOpt (catS (ciLit "ARE") reWsPlus)) (catS (ciLit "IN")
        (catS reWsPlus reMeters))))),
    catS (ciLit "UNLESS") (catS reWsPlus (catS (ciLit "OTHERWISE")
      (catS reWsPlus (catS (.alt (ciLit "SPECIFIED") (ciLit "NOTED"))
        (catS (.star reDot) reMeters))))),
    catS (ciLit "ALL") (catS reWsPlus (catS (ciLit "DIMENSION")
      (catS (reOpt (ciLit "S")) (catS reWsPlus
        (catS (reOpt (catS (ciLit "IN") reWsPlus)) reMeters))))),
    catS (ciLit "UNIT") (catS (reOpt (ciLit "S")) (catS (.star reWs)
      (catS (exChr ':') (catS (.star reWs) (ciLit "MM"))))),
    catS (ciLit "MILLIMETER") (catS (reOpt (ciLit "S")) (catS (.star reWs)
      (catS (exChr '(') (catS (ciLit "MM") (exChr ')'))))) ]

/-- Function `detect_drawing_units`: title-block unit declaration. -/
def detect_drawing_units (title_block_text : String) : Option String :=
  if title_block_text = "" then none
  else if INCH_PATTERNS.any (fun p => reSearch p title_block_text.data) then
    some "inch"
  else if METRIC_PATTERNS.any (fun p => reSearch p title_block_text.data) then
    some "mm"
  else none

/-- Python `\w` for the ASCII data this pipeline sees. -/
def isWordChar (c : Char) : Bool :=
  isAsciiLetter c ∨ isDigitChar c ∨ c = '_'

def isWordCharOpt : Option Char → Bool
  | some c => isWordChar c
  | none => false

def isWordCharAfter : List Char → Bool
  | c :: _ => isWordChar c
  | [] => false

/-- Case-insensitive ASCII literal consumption, returning the remainder. -/
def matchCI : List Char → List Char → Option (List Char)
  | [], s => some s
  | p :: ps, c :: cs =>
    if c = p.toLower ∨ c = p.toUpper then matchCI ps cs else none
  | _ :: _, [] => none

/-- Positional scan: does `tryAt prev suffix` hold somewhere in the string?
`prev` is the character before the position (for `\b`). -/
def scanHit (tryAt : Option Char → List Char → Bool) : Option Char → List Char → Bool
  | prev, [] => tryAt prev []
  | prev, c :: cs => tryAt prev (c :: cs) || scanHit tryAt (some c) cs

/-- METRIC_THREAD_PATTERN `\bM\d+(?:[xX]\d+(?:\.\d+)?)?\b` at one position.
Backtracking resolved: after `M`+digits, a group `[xX]`+digits matches iff
the character after its digits is not a word character (a following
`.digits` tail either completes or falls back to the boundary before the
dot); without the group the boundary must hold right after the digits. -/
def metricThreadAt (prev : Option Char) (s : List Char) : Bool :=
  !isWordCharOpt prev &&
    (match s with
     | 'M' :: rest =>
       let d := rest.takeWhile isDigitChar
       !d.isEmpty &&
         (match rest.drop d.length with
          | [] => true
          | c :: r2 =>
            if c = 'x' ∨ c = 'X' then
              let d2 := r2.takeWhile isDigitChar
              !d2.isEmpty && !isWordCharAfter (r2.drop d2.length)
            else !isWordChar c)
     | _ => false)

/-- Function `detect_callout_units` helper: metric thread hint search. -/
def metricThreadSearch (s : List Char) : Bool := scanHit metricThreadAt none s

/-- IMPERIAL_THREAD_PATTERN `(?:\d+/\d+|#\d+)-\d+\s*(?:UNC|UNF|UN)\b`
(IGNORECASE) at one position. -/
def imperialThreadAt (_ : Option Char) (s : List Char) : Bool :=
  let fromDash : List Char → Bool := fun r =>
    match r with
    | '-' :: r1 =>
      let d3 := r1.takeWhile isDigitChar
      !d3.isEmpty &&
        (let r2 := (r1.drop d3.length).dropWhile isPySpace
         (match matchCI "UNC".data r2 with
           | some r3 => !isWordCharAfter r3
           | none => false) ||
         (match matchCI "UNF".data r2 with
           | some r3 => !isWordCharAfter r3
           | none => false) ||
         (match matchCI "UN".data r2 with
           | some r3 => !isWordCharAfter r3
           | none => false))
    | _ => false
  match s with
  | '#' :: r1 =>
    let d := r1.takeWhile isDigitChar
    !d.isEmpty && fromDash (r1.drop d.length)
  | _ =>
    let d1 := s.takeWhile isDigitChar
    !d1.isEmpty &&
      (match s.drop d1.length with
       | '/' :: r1 =>
         let d2 := r1.takeWhile isDigitChar
         !d2.isEmpty && fromDash (r1.drop d2.length)
       | _ => false)

def imperialThreadSearch (s : List Char) : Bool := scanHit imperialThreadAt none s

/-- Shared numeric prefix `(\d+\.?\d*)` of the mm/inch hints: maximal digits,
optional dot, maximal digits; returns the remainder. -/
def numPrefixRest (s : List Char) : Option (List Char) :=
  let d1 := s.takeWhile isDigitChar
  if d1 = [] then none else
  match s.drop d1.length with
  | '.' :: r1 => some (r1.drop (r1.takeWhile isDigitChar).length)
  | r1 => some r1

/-- CALLOUT_MM_HINT `(\d+\.?\d*)\s*mm\b` (IGNORECASE) at one position. -/
def mmHintAt (_ : Option Char) (s : List Char) : Bool :=
  match numPrefixRest s with
  | some r1 =>
    (match matchCI "mm".data (r1.dropWhile isPySpace) with
     | some r2 => !isWordCharAfter r2
     | none => false)
  | none => false

def mmHintSearch (s : List Char) : Bool := scanHit mmHintAt none s

/-- CALLOUT_INCH_HINT `(\d+\.?\d*)\s*(?:"|in\.?)\b` (case-sensitive) at one
position.  `\b` after the non-word `"` (or after `in.`'s dot) needs a word
character next; `in.` falls back to ending at `n` when the dot end fails. -/
def inchHintAt (_ : Option Char) (s : List Char) : Bool :=
  match numPrefixRest s with
  | some r1 =>
    (match r1.dropWhile isPySpace with
     | '"' :: r2 => isWordCharAfter r2
     | 'i' :: 'n' :: r2 =>
       (match r2 with
        | '.' :: _ => true
        | _ => !isWordCharAfter r2)
     | _ => false)
  | none => false

def inchHintSearch (s : List Char) : Bool := scanHit inchHintAt none s

/-- Function `detect_callout_units`: unit hints in one callout's raw text. -/
def detect_callout_units (raw_text : String) : Option String :=
  if raw_text = "" then none
  else if metricThreadSearch raw_text.data then some "mm"
  else if imperialThreadSearch raw_text.data then some "inch"
  else if mmHintSearch raw_text.data then some "mm"
  else if inchHintSearch raw_text.data then some "inch"
  else none

/-- Conversion factor `MM_TO_INCH = 1.0 / 25.4` (exact in `ℚ`). -/
def MM_TO_INCH : ℚ := 1 / 25.4

/-- Python `re` end-of-string `$` (no MULTILINE): end, or before a final
newline. -/
def reEndOk : List Char → Bool
  | [] => true
  | ['\n'] => true
  | _ => false

/-- Match for the THRU/DEEP removal `(?:THRU|DEEP)\s*` (IGNORECASE). -/
def thruDeepMatch : SubMatch := fun s =>
  match matchCI "THRU".data s with
  | some r => some ([], 4 + (r.takeWhile isPySpace).length)
  | none =>
    match matchCI "DEEP".data s with
    | some r => some ([], 4 + (r.takeWhile isPySpace).length)
    | none => none

/-- Function `_parse_numeric`: number, `3/8` fraction or `1-3/8` mixed form. -/
def parse_numeric (value : String) : Option ℚ :=
  if value = "" then none else
  let v := (pyStripChars value.data).dropWhile (· = '"')
  let v := (v.reverse.dropWhile (· = '"')).reverse
  -- simple fraction `^(\d+)/(\d+)$`
  let d1 := v.takeWhile isDigitChar
  let afterD1 := v.drop d1.length
  match !d1.isEmpty, afterD1 with
  | true, '/' :: r1 =>
    let d2 := r1.takeWhile isDigitChar
    if d2 ≠ [] ∧ reEndOk (r1.drop d2.length) then
      if digitsToNat d2 ≠ 0 then
        some ((digitsToNat d1 : ℚ) / (digitsToNat d2 : ℚ))
      else none
    else
      ((parseFloatString (pyStripChars (runSub thruDeepMatch v))))
  | true, '-' :: r1 =>
    -- mixed fraction `^(\d+)-(\d+)/(\d+)$`
    let d2 := r1.takeWhile isDigitChar
    (match !d2.isEmpty, r1.drop d2.length with
     | true, '/' :: r2 =>
       let d3 := r2.takeWhile isDigitChar
       if d3 ≠ [] ∧ reEndOk (r2.drop d3.length) then
         if digitsToNat d3 ≠ 0 then
           some ((digitsToNat d1 : ℚ) + (digitsToNat d2 : ℚ) / (digitsToNat d3 : ℚ))
         else none
       else parseFloatString (pyStripChars (runSub thruDeepMatch v))
     | _, _ => parseFloatString (pyStripChars (runSub thruDeepMatch v)))
  | _, _ =>
    parseFloatString (pyStripChars (runSub thruDeepMatch v))

/-- PLAUSIBLE_RANGES lookup with the default `(0.001, 50.0)`. -/
def plausibleRange (field_name : String) : ℚ × ℚ :=
  if field_name = "diameter" then (0.010, 12.0)
  else if field_name = "radius" then (0.005, 6.0)
  else if field_name = "size" then (0.005, 2.0)
  else if field_name = "depth" then (0.010, 12.0)
  else if field_name = "cboreDiameter" then (0.050, 6.0)
  else if field_name = "cboreDepth" then (0.010, 4.0)
  else if field_name = "csinkDiameter" then (0.050, 4.0)
  else if field_name = "roughness" then (1.0, 500.0)
  else if field_name = "toleranceValue" then (0.0001, 0.1)
  else (0.001, 50.0)

/-- Function `_is_plausible_inch`. -/
def is_plausible_inch (value : ℚ) (field_name : String) : Bool :=
  let (lo, hi) := plausibleRange field_name
  lo ≤ value ∧ value ≤ hi

/-- DIMENSION_FIELDS: numeric fields that get converted. -/
def DIMENSION_FIELDS : List String :=
  ["diameter", "radius", "size", "depth",
   "cboreDiameter", "cboreDepth", "csinkDiameter",
   "nominal", "tolerance", "bilateral", "plus", "minus",
   "threadSize"]

/-- SKIP_FIELDS: fields that are never converted. -/
def SKIP_FIELDS : List String :=
  ["quantity", "calloutType", "pitch",
   "threadClass", "csinkAngle", "angle", "roughness",
   "gdtType", "toleranceValue"]

/-- Function `_convert_value`. -/
def convert_value (value : String) (factor : ℚ) : Option ℚ :=
  (parse_numeric value).map (· * factor)

/-- Function `_dual_hypothesis`: count plausible fields under the inch and the
mm→inch hypotheses; strictly more wins, ties (and nothing checkable) go to
inches with the ambiguous marker.  The per-field counting loop is split out
as `plausibleCounts` (inch-plausible, mm-plausible, total checked). -/
def plausibleCounts (parsed : PyDict) : ℕ × ℕ × ℕ :=
  parsed.foldl
    (fun (acc : ℕ × ℕ × ℕ) kv =>
      let ( inch_plausible, mm_plausible, total_checked) := acc
      if SKIP_FIELDS.contains kv.1 ∨ ¬ DIMENSION_FIELDS.contains kv.1 then acc
      else
        match kv.2 with
        | .vstr sv =>
          (match parse_numeric sv with
           | some numeric =>
             ( inch_plausible + (if is_plausible_inch numeric kv.1 then 1 else 0),
              mm_plausible +
                (if is_plausible_inch (numeric * MM_TO_INCH) kv.1 then 1 else 0),
              total_checked + 1)
           | none => acc)
        | _ => acc)
    (0, 0, 0)

/-- Decision rule of `_dual_hypothesis` on the plausibility counts. -/
def dual_hypothesis (parsed : PyDict) : String × String :=
  let ( inch_plausible, mm_plausible, total_checked) := plausibleCounts parsed
  if total_checked = 0 then ("inch", "dual_hypothesis_ambiguous")
  else if mm_plausible > inch_plausible then ("mm", "dual_hypothesis")
  else if inch_plausible > mm_plausible then ("inch", "dual_hypothesis")
  else ("inch", "dual_hypothesis_ambiguous")

/-- Python truthiness of an `Optional[str]`. -/
def truthyStrOpt : Option String → Bool
  | some s => s ≠ ""
  | none => false

/-- Function `normalize_callout`: resolve units for one parsed callout and
convert its string dimension fields to inches (rounded to 6 places), adding
the provenance fields. -/
def normalize_callout (parsed : PyDict) (raw_text : String)
    (drawing_units : Option String) : PyDict :=
  let duVal : Val := match drawing_units with
    | some u => .vstr u
    | none => .vnone
  if parsed.isEmpty then
    [("_detected_units", .vnone), ("_drawing_units", duVal),
     ("_normalization_method", .vnone)]
  else
    let callout_units := detect_callout_units raw_text
    let (effective_units, method) :=
      if truthyStrOpt callout_units then (callout_units.getD "", "callout_hint")
      else if truthyStrOpt drawing_units then (drawing_units.getD "", "drawing_hint")
      else dual_hypothesis parsed
    let factor := if effective_units = "mm" then MM_TO_INCH else 1
    let result := parsed.foldl
      (fun (result : PyDict) kv =>
        if SKIP_FIELDS.contains kv.1 then result
        else if ¬ DIMENSION_FIELDS.contains kv.1 then result
        else
          match kv.2 with
          | .vstr sv =>
            (match convert_value sv factor with
             | some converted => dictSet result kv.1 (.vfloat (pyRound converted 6))
             | none => result)
          | _ => result)
      parsed
    let result := dictSet result "_detected_units" (.vstr effective_units)
    let result := dictSet result "_drawing_units" duVal
    dictSet result "_normalization_method" (.vstr method)

/-- Function `normalize_callouts`: normalize a list (detects drawing units
once from the title block; missing raw texts default to `""`). -/
def normalize_callouts (callouts : List PyDict) (raw_texts : Option (List String))
    (title_block_text : String) : List PyDict :=
  let drawing_units := detect_drawing_units title_block_text
  let raws := raw_texts.getD (List.replicate callouts.length "")
  (callouts.zip raws).map fun pr => normalize_callout pr.1 pr.2 drawing_units

/-! ## Feature matcher (`ai_inspector/comparison/matcher.py`)

MatchResult stores, alongside each callout/feature value, its index in the
input list: this models Python object identity (the source stores the object
reference), and is what lets the instance-exclusivity claims be stated.
The source's module global `default_config` is threaded as a `cfg` parameter.
Comparator scores (`float("inf")` when no match) are modelled by returning
`Option (MatchResult × ℚ)`: `none` is "no match / infinite score". -/

/-- FUTURE_TYPES (`ai_inspector/detection/classes.py`): kinds the matcher
skips instead of penalizing. -/
def FUTURE_TYPES : List String :=
  ["Slot", "Bend", "Note", "CounterboreHole", "CountersinkHole",
   "Thread", "GDT", "SurfaceFinish", "Dimension", "Tolerance"]

inductive MatchStatus where
  | matched | missing | extra | tolerance_fail | skipped
deriving DecidableEq, Repr

/-- Serialized status strings (`MatchStatus.value`). -/
def MatchStatus.value : MatchStatus → String
  | .matched => "matched"
  | .missing => "missing"
  | .extra => "extra"
  | .tolerance_fail => "tolerance"
  | .skipped => "skipped"

/-- Result of matching a single feature.  The `ℕ` components are the input
list positions identifying the instances (see section comment). -/
structure MatchResult where
  status : MatchStatus
  drawing_callout : Option (ℕ × PyDict) := none
  sw_feature : Option (ℕ × SwFeature) := none
  delta : Option ℚ := none
  notes : String := ""
deriving Repr

/-- Tolerances of a `FeatureMatcher` instance. -/
structure FeatureMatcher where
  hole_tolerance : ℚ
  thread_tolerance_mm : ℚ
  fillet_tolerance : ℚ
  chamfer_tolerance : ℚ
  pitch_tolerance : ℚ

/-- Python `x or default` for optional float arguments (`None` *and* `0.0`
fall back to the default). -/
def orDefault (o : Option ℚ) (d : ℚ) : ℚ :=
  match o with
  | some x => if x = 0 then d else x
  | none => d

/-- `FeatureMatcher.__init__`, with the `default_config` fallbacks. -/
def featureMatcherMk (hole_tolerance thread_tolerance_mm fillet_tolerance
    chamfer_tolerance pitch_tolerance : Option ℚ) : FeatureMatcher :=
  { hole_tolerance := orDefault hole_tolerance default_config.hole_tolerance_inches
    thread_tolerance_mm := orDefault thread_tolerance_mm default_config.thread_tolerance_mm
    fillet_tolerance := orDefault fillet_tolerance default_config.fillet_tolerance_inches
    chamfer_tolerance := orDefault chamfer_tolerance default_config.chamfer_tolerance_inches
    pitch_tolerance := orDefault pitch_tolerance default_config.pitch_tolerance }

/-- The `FeatureMatcher()` used by `compare_drawing` (all defaults). -/
def defaultMatcher : FeatureMatcher :=
  featureMatcherMk none none none none none

/-- Numeric field accessor shared by `_get_callout_diameter` etc.:
`isinstance(d, (int, float))` then `float(d)`, else `None`. -/
def numField (callout : PyDict) (k : String) : Option ℚ :=
  match dictGet callout k with
  | .vint n => some (n : ℚ)
  | .vfloat q => some q
  | .vbool b => some (if b then 1 else 0)
  | _ => none

def get_callout_diameter (callout : PyDict) : Option ℚ := numField callout "diameter"

def get_callout_depth (callout : PyDict) : Option ℚ := numField callout "depth"

def get_callout_radius (callout : PyDict) : Option ℚ := numField callout "radius"

def get_callout_chamfer_distance (callout : PyDict) : Option ℚ := numField callout "size"

/-- String value of the `calloutType` key, when it is a string. -/
def calloutTypeIs (callout : PyDict) (t : String) : Bool :=
  match dictGet callout "calloutType" with
  | .vstr s => s = t
  | _ => false

/-- Python `str(x or "")`: string of a truthy value, else `""`. -/
def strOrEmpty (v : Val) : String :=
  if pyTruthy v then pyStrVal v else ""

/-- ASCII upper-casing (Python `str.upper()` on this pipeline's data). -/
def upperChars (s : List Char) : List Char := s.map Char.toUpper

/-- Substring test on character lists. -/
def listContainsSub : List Char → List Char → Bool
  | needle, [] => needle.isEmpty
  | needle, c :: cs => needle.isPrefixOf (c :: cs) || listContainsSub needle cs

/-- Search of `re.search(r"M(\d+(?:\.\d+)?)", s, IGNORECASE)`: first `M`/`m`
followed by digits, capture with optional fractional part, as a rational. -/
def findMNumber : List Char → Option ℚ
  | [] => none
  | c :: cs =>
    if c = 'M' ∨ c = 'm' then
      let d := cs.takeWhile isDigitChar
      if d.isEmpty then findMNumber cs
      else
        let rest := cs.drop d.length
        match rest with
        | '.' :: r2 =>
          let d2 := r2.takeWhile isDigitChar
          if d2.isEmpty then some ((digitsToNat d : ℚ))
          else some ((digitsToNat d : ℚ) +
            (digitsToNat d2 : ℚ) / (10 : ℚ) ^ d2.length)
        | _ => some ((digitsToNat d : ℚ))
    else findMNumber cs

/-- The `thread` dict of a callout: `dict(callout.get("thread", {}) or {})`.
A non-dict truthy value would raise in Python and is outside the modelled
inputs; it maps to the empty dict here. -/
def calloutThreadDict (callout : PyDict) : PyDict :=
  match dictGet callout "thread" with
  | .vdict d => d
  | _ => []

/-- The thread dict `_match_thread` works with: the callout's own thread
dict, or (when empty) the backward-compatibility dict rebuilt from
`threadSize`/`pitch`. -/
def effectiveCalloutThread (callout : PyDict) : PyDict :=
  let callout_thread0 := calloutThreadDict callout
  if callout_thread0.isEmpty then
    -- backward compatibility: build a thread dict from threadSize/pitch
    let thread_size := strOrEmpty (dictGetD callout "threadSize" (.vstr ""))
    let pitch_val := dictGet callout "pitch"
    match findMNumber thread_size.data with
    | some nom =>
      let base : PyDict :=
        [("standard", .vstr "Metric"), ("nominalDiameterMm", .vfloat nom),
         ("raw", .vstr thread_size)]
      (match pitch_val with
       | .vnone => base
       | v =>
         match pyToFloat v with
         | some p => base ++ [("pitch", .vfloat p)]
         | none => base)
    | none => callout_thread0
  else callout_thread0

/-- Secondary pitch check of `_match_thread` (the in-tolerance diameter
case): a ToleranceFail result when both pitches are truthy, the callout
pitch is plausible and the difference exceeds the tolerance; `none`
otherwise. -/
def threadPitchCheck (m : FeatureMatcher) (callout : ℕ × PyDict)
    (sw_feat : ℕ × SwFeature) (callout_thread sw_thread : PyDict)
    (delta : ℚ) : Option (MatchResult × ℚ) :=
  let callout_pitch := dictGet callout_thread "pitch"
  let sw_pitch := dictGet sw_thread "pitch"
  if pyTruthy callout_pitch ∧ pyTruthy sw_pitch then
    match numVal callout_pitch, numVal sw_pitch with
    | some cp, some sp =>
      let metric_pitch_plausible := (0.2 : ℚ) ≤ cp ∧ cp ≤ 6.0
      if metric_pitch_plausible ∧ |cp - sp| > m.pitch_tolerance then
        some ({ status := .tolerance_fail
                drawing_callout := some callout
                sw_feature := some sw_feat
                delta := some (cp - sp)
                notes := "Thread pitch mismatch: drawing=" ++
                  pyStrVal callout_pitch ++ ", SW=" ++ pyStrVal sw_pitch },
              delta)
      else none
    | _, _ => none
  else none

/-- Metric-nominal-diameter branch of `_match_thread`. -/
def threadMetricBranch (m : FeatureMatcher) (callout : ℕ × PyDict)
    (sw_feat : ℕ × SwFeature) (callout_thread sw_thread : PyDict) :
    Option (MatchResult × ℚ) :=
  let callout_nom := dictGet callout_thread "nominalDiameterMm"
  let sw_nom := dictGet sw_thread "nominalDiameterMm"
  if pyTruthy callout_nom ∧ pyTruthy sw_nom then
    match numVal callout_nom, numVal sw_nom with
    | some cn, some sn =>
      let delta := cn - sn
      if |delta| ≤ m.thread_tolerance_mm then
        (match threadPitchCheck m callout sw_feat callout_thread sw_thread delta with
         | some r => some r
         | none =>
           let callout_pitch := dictGet callout_thread "pitch"
           some ({ status := .matched
                   drawing_callout := some callout
                   sw_feature := some sw_feat
                   delta := some delta
                   notes := "Thread match: M" ++ pyStrVal callout_nom ++ "x" ++
                     (if pyTruthy callout_pitch then pyStrVal callout_pitch else "?") },
                 delta))
      else none
    | _, _ => none
  else none

/-- Imperial TPI comparison of `_match_thread`. -/
def threadTpiBranch (m : FeatureMatcher) (callout : ℕ × PyDict)
    (sw_feat : ℕ × SwFeature) (callout_thread sw_thread : PyDict) :
    Option (MatchResult × ℚ) :=
  let callout_tpi := dictGet callout_thread "tpi"
  let sw_tpi := dictGet sw_thread "tpi"
  if pyTruthy callout_tpi ∧ pyTruthy sw_tpi then
    match numVal callout_tpi, numVal sw_tpi with
    | some ct, some st =>
      if ct = st then
        some ({ status := .matched
                drawing_callout := some callout
                sw_feature := some sw_feat
                delta := some 0
                notes := "Thread match: " ++ pyStrVal callout_tpi ++ " TPI" }, 0)
      else
        some ({ status := .tolerance_fail
                drawing_callout := some callout
                sw_feature := some sw_feat
                delta := some (ct - st)
                notes := "TPI mismatch: drawing=" ++ pyStrVal callout_tpi ++
                  ", SW=" ++ pyStrVal sw_tpi }, |ct - st|)
    | _, _ => none
  else none

/-- `FeatureMatcher._match_thread`, assembled from its branches (the
decomposition mirrors the source's control flow).  Numeric thread fields are
modelled as numbers (`numVal`); non-numeric values in these fields would
raise in the source's arithmetic and are outside the modelled inputs. -/
def match_thread (m : FeatureMatcher) (callout : ℕ × PyDict)
    (sw_feat : ℕ × SwFeature) : Option (MatchResult × ℚ) :=
  let callout_thread := effectiveCalloutThread callout.2
  let sw_thread := (sw_feat.2.thread).getD []
  match threadMetricBranch m callout sw_feat callout_thread sw_thread with
  | some r => some r
  | none => threadTpiBranch m callout sw_feat callout_thread sw_thread

/-- `FeatureMatcher._match_hole`: diameter within tolerance (with a weak
depth penalty on the score only), 3x band for tolerance failures. -/
def match_hole (m : FeatureMatcher) (callout : ℕ × PyDict)
    (sw_feat : ℕ × SwFeature) : Option (MatchResult × ℚ) :=
  match get_callout_diameter callout.2, sw_feat.2.diameter_inches with
  | some callout_dia, some sw_dia =>
    let delta := callout_dia - sw_dia
    let depth_penalty :=
      match get_callout_depth callout.2, sw_feat.2.depth_inches with
      | some cd, some sd => |cd - sd| * 0.01
      | _, _ => (0 : ℚ)
    let sort_key := |delta| + depth_penalty
    if |delta| ≤ m.hole_tolerance then
      some ({ status := .matched
              drawing_callout := some callout
              sw_feature := some sw_feat
              delta := some delta
              notes := "Hole match: " ++ pyFormatFixed callout_dia 4 ++
                "\" (delta=" ++ pyFormatSigned delta 4 ++ "\")" }, sort_key)
    else if |delta| ≤ m.hole_tolerance * 3 then
      some ({ status := .tolerance_fail
              drawing_callout := some callout
              sw_feature := some sw_feat
              delta := some delta
              notes := "Hole size mismatch: drawing=" ++ pyFormatFixed callout_dia 4 ++
                "\", SW=" ++ pyFormatFixed sw_dia 4 ++ "\"" }, sort_key)
    else none
  | _, _ => none

/-- `FeatureMatcher._match_fillet`. -/
def match_fillet (m : FeatureMatcher) (callout : ℕ × PyDict)
    (sw_feat : ℕ × SwFeature) : Option (MatchResult × ℚ) :=
  match get_callout_radius callout.2, sw_feat.2.radius_inches with
  | some callout_radius, some sw_radius =>
    let delta := callout_radius - sw_radius
    if |delta| ≤ m.fillet_tolerance then
      some ({ status := .matched
              drawing_callout := some callout
              sw_feature := some sw_feat
              delta := some delta
              notes := "Fillet match: R" ++ pyFormatFixed callout_radius 3 ++ "\"" },
            delta)
    else none
  | _, _ => none

/-- `FeatureMatcher._match_chamfer` (SW stores the distance in the radius
field). -/
def match_chamfer (m : FeatureMatcher) (callout : ℕ × PyDict)
    (sw_feat : ℕ × SwFeature) : Option (MatchResult × ℚ) :=
  match get_callout_chamfer_distance callout.2, sw_feat.2.radius_inches with
  | some callout_dist, some sw_dist =>
    let delta := callout_dist - sw_dist
    if |delta| ≤ m.chamfer_tolerance then
      some ({ status := .matched
              drawing_callout := some callout
              sw_feature := some sw_feat
              delta := some delta
              notes := "Chamfer match: " ++ pyFormatFixed callout_dist 3 ++
                "\" x 45°" }, delta)
    else none
  | _, _ => none

/-- `FeatureMatcher._try_match`: dispatch on the feature kind. -/
def try_match (m : FeatureMatcher) (callout : ℕ × PyDict)
    (sw_feat : ℕ × SwFeature) (callout_type : String) : Option (MatchResult × ℚ) :=
  if callout_type = "TappedHole" then match_thread m callout sw_feat
  else if callout_type = "Hole" then match_hole m callout sw_feat
  else if callout_type = "Fillet" then match_fillet m callout sw_feat
  else if callout_type = "Chamfer" then match_chamfer m callout sw_feat
  else none

/-- Inner best-candidate loop of `_match_by_type`: smallest `|delta|` wins,
strictly (`abs(delta) < abs(best_delta)`), skipping already-used features. -/
def bestByType (m : FeatureMatcher) (callout : ℕ × PyDict) (callout_type : String)
    (type_sw : List (ℕ × SwFeature)) (sw_used : List ℕ) :
    Option (MatchResult × ℚ × ℕ) :=
  type_sw.foldl
    (fun best swp =>
      if sw_used.contains swp.1 then best
      else
        match try_match m callout swp callout_type with
        | some (mr, delta) =>
          (match best with
           | some (_, best_delta, _) =>
             if |delta| < |best_delta| then some (mr, delta, swp.1) else best
           | none => some (mr, delta, swp.1))
        | none => best)
    none

/-- One step of the shared greedy outer loop of `_match_by_type` and
`_match_hole_tapped_equivalents`: pick the best still-unused feature for the
candidate callout; on success consume both sides. -/
def greedyStep (bestF : (ℕ × PyDict) → List ℕ → Option (MatchResult × ℚ × ℕ))
    (acc : List MatchResult × List ℕ × List ℕ) (cp : ℕ × PyDict) :
    List MatchResult × List ℕ × List ℕ :=
  match bestF cp acc.2.1 with
  | some (mr, _, sw_idx) =>
    (acc.1 ++ [mr], acc.2.1 ++ [sw_idx], acc.2.2 ++ [cp.1])
  | none => acc

/-- The shared outer loop shape of `_match_by_type` and
`_match_hole_tapped_equivalents`: for each candidate callout pick the best
still-unused feature; on success consume both sides. -/
def greedyLoop (bestF : (ℕ × PyDict) → List ℕ → Option (MatchResult × ℚ × ℕ))
    (cands : List (ℕ × PyDict)) : List MatchResult × List ℕ × List ℕ :=
  cands.foldl (greedyStep bestF) ([], [], [])

/-- `FeatureMatcher._match_by_type`: greedy per-callout matching of one kind. -/
def match_by_type (m : FeatureMatcher) (drawing_callouts : List PyDict)
    (sw_features : List SwFeature) (callout_type : String)
    (exclude_sw exclude_callout : List ℕ) :
    List MatchResult × List ℕ × List ℕ :=
  let type_callouts := drawing_callouts.enum.filter
    (fun p => calloutTypeIs p.2 callout_type ∧ ¬ exclude_callout.contains p.1)
  let type_sw := sw_features.enum.filter
    (fun p => p.2.feature_type = callout_type ∧ ¬ exclude_sw.contains p.1)
  greedyLoop (fun cp sw_used => bestByType m cp callout_type type_sw sw_used)
    type_callouts

/-- `FeatureMatcher._try_equivalent_hole_tapped`: diameter-proximity match
within the equivalence tolerance, with keyword score bonuses. -/
def try_equivalent_hole_tapped (cfg : Config) (callout : ℕ × PyDict)
    (sw_feat : ℕ × SwFeature) : Option (MatchResult × ℚ) :=
  match get_callout_diameter callout.2, sw_feat.2.diameter_inches with
  | some callout_dia, some sw_dia =>
    let tol := cfg.hole_tapped_equivalence_tolerance_inches
    let delta := callout_dia - sw_dia
    if |delta| > tol then none
    else
      let raw := strOrEmpty (dictGetD callout.2 "raw" (.vstr ""))
      let raw_upper := upperChars raw.data
      let bonus : ℚ :=
        (if listContainsSub "DRILL".data raw_upper then 0.003 else 0) +
        (let sw_thread_raw :=
          upperChars (strOrEmpty (dictGetD (sw_feat.2.thread.getD []) "raw" (.vstr ""))).data
         if ¬ sw_thread_raw.isEmpty ∧ listContainsSub sw_thread_raw raw_upper then
           (0.003 : ℚ)
         else 0)
      let score := max 0 (|delta| - bonus)
      some ({ status := .matched
              drawing_callout := some callout
              sw_feature := some sw_feat
              delta := some delta
              notes := "Equivalent match (" ++ pyStrVal (dictGet callout.2 "calloutType") ++
                "<->" ++ sw_feat.2.feature_type ++ ") by diameter: " ++
                pyFormatFixed callout_dia 4 ++ "\" (delta=" ++
                pyFormatSigned delta 4 ++ "\")" }, score)
  | _, _ => none

/-- Membership of the `calloutType` value in `{"Hole", "TappedHole"}`. -/
def isHoleOrTapped (callout : PyDict) : Bool :=
  calloutTypeIs callout "Hole" ∨ calloutTypeIs callout "TappedHole"

/-- Inner best-candidate loop of `_match_hole_tapped_equivalents`: smallest
score wins strictly, skipping used features and same-type pairs. -/
def bestEquivalent (cfg : Config) (cp : ℕ × PyDict)
    (candidate_sw : List (ℕ × SwFeature)) (sw_used : List ℕ) :
    Option (MatchResult × ℚ × ℕ) :=
  candidate_sw.foldl
    (fun (best : Option (MatchResult × ℚ × ℕ)) swp =>
      if sw_used.contains swp.1 then best
      else if calloutTypeIs cp.2 swp.2.feature_type then best
      else
        match try_equivalent_hole_tapped cfg cp swp with
        | some (mr, score) =>
          (match best with
           | some (_, best_score, _) =>
             if score < best_score then some (mr, score, swp.1) else best
           | none => some (mr, score, swp.1))
        | none => best)
    none

/-- `FeatureMatcher._match_hole_tapped_equivalents`: cross-type fallback
stage (smallest score wins strictly; only cross-type pairs considered). -/
def match_hole_tapped_equivalents (cfg : Config) (drawing_callouts : List PyDict)
    (sw_features : List SwFeature) (exclude_sw exclude_callout : List ℕ) :
    List MatchResult × List ℕ × List ℕ :=
  let candidate_callouts := drawing_callouts.enum.filter
    (fun p => ¬ exclude_callout.contains p.1 ∧ isHoleOrTapped p.2)
  let candidate_sw := sw_features.enum.filter
    (fun p => ¬ exclude_sw.contains p.1 ∧
      (p.2.feature_type = "Hole" ∨ p.2.feature_type = "TappedHole"))
  greedyLoop (fun cp sw_used => bestEquivalent cfg cp candidate_sw sw_used)
    candidate_callouts

/-- `FeatureMatcher._find_correlated_extra_callout`: diagnostic note text for
a MISSING feature that is numerically close to an unmatched callout. -/
def find_correlated_extra_callout (cfg : Config) (sw_feat : SwFeature)
    (drawing_callouts : List PyDict) (used_callout_indices : List ℕ) :
    Option String :=
  if ¬ (sw_feat.feature_type = "Hole" ∨ sw_feat.feature_type = "TappedHole") then none
  else
    match sw_feat.diameter_inches with
    | none => none
    | some sw_dia =>
      let tol := cfg.match_extra_missing_correlation_tolerance_inches
      (drawing_callouts.enum.foldl
        (fun (acc : Option String × Option ℚ) cp =>
          if used_callout_indices.contains cp.1 then acc
          else if ¬ isHoleOrTapped cp.2 then acc
          else
            match get_callout_diameter cp.2 with
            | none => acc
            | some c_dia =>
              let d := |c_dia - sw_dia|
              let better : Bool := match acc.2 with
                | some best_delta => d < best_delta
                | none => true
              if d ≤ tol ∧ better then
                let raw := String.mk ((strOrEmpty (dictGetD cp.2 "raw" (.vstr ""))).data.map
                  (fun c => if c = '\n' then ' ' else c))
                (some (pyStrVal (dictGet cp.2 "calloutType") ++ " dia=" ++
                  pyFormatFixed c_dia 4 ++ "\" (delta=" ++ pyFormatFixed d 4 ++
                  "\") raw='" ++ String.mk (raw.data.take 80) ++ "'"), some d)
              else acc)
        (none, none)).1

/-- One same-kind stage of `match_all`: run `_match_by_type` for one kind
against the accumulated used lists and append its output. -/
def typeStageStep (m : FeatureMatcher) (drawing_callouts : List PyDict)
    (sw_features : List SwFeature)
    (acc : List MatchResult × List ℕ × List ℕ) (callout_type : String) :
    List MatchResult × List ℕ × List ℕ :=
  let stage := match_by_type m drawing_callouts sw_features callout_type acc.2.1 acc.2.2
  (acc.1 ++ stage.1, acc.2.1 ++ stage.2.1, acc.2.2 ++ stage.2.2)

/-- Callout-side future-type skip step of `match_all`. -/
def skipCalloutStep (acc : List MatchResult × List ℕ × List ℕ)
    (cp : ℕ × PyDict) : List MatchResult × List ℕ × List ℕ :=
  if !acc.2.2.contains cp.1 &&
      (match dictGet cp.2 "calloutType" with
        | .vstr t => FUTURE_TYPES.contains t
        | _ => false) then
    (acc.1 ++ [{ status := .skipped
                 drawing_callout := some cp
                 notes := "Future type skipped: " ++
                   pyStrVal (dictGet cp.2 "calloutType") }],
     acc.2.1, acc.2.2 ++ [cp.1])
  else acc

/-- SW-side future-type skip step of `match_all`. -/
def skipSwStep (acc : List MatchResult × List ℕ × List ℕ)
    (fp : ℕ × SwFeature) : List MatchResult × List ℕ × List ℕ :=
  if ¬ acc.2.1.contains fp.1 ∧ FUTURE_TYPES.contains fp.2.feature_type then
    (acc.1 ++ [{ status := .skipped
                 sw_feature := some fp
                 notes := "Future type skipped: " ++ fp.2.feature_type }],
     acc.2.1 ++ [fp.1], acc.2.2)
  else acc

/-- MISSING step of `match_all` for one still-unmatched SW feature. -/
def missingStep (cfg : Config) (drawing_callouts : List PyDict)
    (used_sw2 used_callout2 : List ℕ) (results : List MatchResult)
    (fp : ℕ × SwFeature) : List MatchResult :=
  if ¬ used_sw2.contains fp.1 then
    let note := "SW " ++ fp.2.feature_type ++ " not found on drawing"
    let note :=
      match find_correlated_extra_callout cfg fp.2 drawing_callouts used_callout2 with
      | some corr => note ++ "; probable correlation with extra drawing callout: " ++ corr
      | none => note
    results ++ [{ status := .missing, sw_feature := some fp, notes := note }]
  else results

/-- EXTRA step of `match_all` for one still-unmatched drawing callout. -/
def extraStep (used_callout2 : List ℕ) (results : List MatchResult)
    (cp : ℕ × PyDict) : List MatchResult :=
  if ¬ used_callout2.contains cp.1 then
    results ++ [{ status := .extra
                  drawing_callout := some cp
                  notes := "Drawing callout not in SW model: " ++
                    strOrEmpty (dictGetD cp.2 "raw" (.vstr "")) }]
  else results

/-- `FeatureMatcher.match_all`: the full matching pipeline — same-kind greedy
stages in fixed kind order, optional cross-kind equivalence stage, skip-list
handling, then MISSING/EXTRA residuals (the step functions are named above,
mirroring the source's sequential statements). -/
def match_all (cfg : Config) (m : FeatureMatcher) (drawing_callouts : List PyDict)
    (sw_features : List SwFeature) : List MatchResult :=
  -- same-kind stages
  let afterTypes := ["TappedHole", "Hole", "Fillet", "Chamfer"].foldl
    (typeStageStep m drawing_callouts sw_features) ([], [], [])
  -- cross-type equivalence stage
  let afterEq :=
    if cfg.match_hole_tapped_equivalence then
      let stage := match_hole_tapped_equivalents cfg drawing_callouts sw_features
        afterTypes.2.1 afterTypes.2.2
      (afterTypes.1 ++ stage.1, afterTypes.2.1 ++ stage.2.1, afterTypes.2.2 ++ stage.2.2)
    else afterTypes
  -- skip future types (callout side, then SW side)
  let afterSkipC := drawing_callouts.enum.foldl skipCalloutStep afterEq
  let afterSkipS := sw_features.enum.foldl skipSwStep afterSkipC
  -- unmatched SW features become MISSING
  let resultsM := sw_features.enum.foldl
    (missingStep cfg drawing_callouts afterSkipS.2.1 afterSkipS.2.2) afterSkipS.1
  -- unmatched drawing callouts become EXTRA
  drawing_callouts.enum.foldl (extraStep afterSkipS.2.2) resultsM

/-- Aggregate scores returned by `FeatureMatcher.compute_scores`. -/
structure Scores where
  matched : ℕ
  missing : ℕ
  extra : ℕ
  skipped : ℕ
  tolerance_fail : ℕ
  instance_match_rate : ℚ
  total_rate : ℚ
deriving Repr

/-- `FeatureMatcher.compute_scores`: SKIPPED excluded from all denominators,
EXTRA only in the total rate, rates rounded to 4 decimal places and
defaulting to 1.0 on an empty denominator. -/
def compute_scores (results : List MatchResult) : Scores :=
  let matched := (results.filter (·.status = .matched)).length
  let missing := (results.filter (·.status = .missing)).length
  let extra := (results.filter (·.status = .extra)).length
  let skipped := (results.filter (·.status = .skipped)).length
  let tolerance_fail := (results.filter (·.status = .tolerance_fail)).length
  let instance_denom := matched + missing + tolerance_fail
  let total_denom := matched + missing + extra + tolerance_fail
  let instance_match_rate : ℚ :=
    if instance_denom > 0 then (matched : ℚ) / (instance_denom : ℚ) else 1.0
  let total_rate : ℚ :=
    if total_denom > 0 then (matched : ℚ) / (total_denom : ℚ) else 1.0
  { matched := matched, missing := missing, extra := extra, skipped := skipped
    tolerance_fail := tolerance_fail
    instance_match_rate := pyRound instance_match_rate 4
    total_rate := pyRound total_rate 4 }

/-! ## Validation schema (`ai_inspector/schemas/callout_schema.py`) -/

/-- REQUIRED_FIELDS: required fields per callout type (source order). -/
def REQUIRED_FIELDS : List (String × List String) :=
  [ ("Hole", ["diameter"]),
    ("TappedHole", ["threadSize"]),
    ("CounterboreHole", ["cboreDiameter"]),
    ("CountersinkHole", ["csinkDiameter"]),
    ("Fillet", ["radius"]),
    ("Chamfer", ["size"]),
    ("Thread", ["threadSize"]),
    ("GDT", ["gdtType"]),
    ("SurfaceFinish", ["roughness"]),
    ("Dimension", ["nominal"]),
    ("Tolerance", []),
    ("Slot", []),
    ("Bend", []),
    ("Note", []),
    ("Unknown", []) ]

/-- Function `get_required_fields` (default `[]`). -/
def get_required_fields (callout_type : String) : List String :=
  match REQUIRED_FIELDS.find? (·.1 = callout_type) with
  | some p => p.2
  | none => []

/-- Function `is_valid_callout_type` (`VALID_CALLOUT_TYPES` membership). -/
def is_valid_callout_type (callout_type : String) : Bool :=
  (REQUIRED_FIELDS.map (·.1)).contains callout_type

/-- POSITIVE_NUMERIC_FIELDS (a Python set in the source, whose iteration
order is unspecified; listed here in the source-literal order — the checks
are order-independent except for error-message ordering). -/
def POSITIVE_NUMERIC_FIELDS : List String :=
  ["diameter", "radius", "size", "depth",
   "cboreDiameter", "cboreDepth", "csinkDiameter",
   "nominal", "roughness", "toleranceValue"]

/-- ANGLE_FIELDS. -/
def ANGLE_FIELDS : List String := ["csinkAngle", "angle"]

/-- QUANTITY_FIELDS. -/
def QUANTITY_FIELDS : List String := ["quantity"]

/-! ## Validator (`ai_inspector/extractors/validator.py`) -/

/-- Validity of the `calloutType` value (a non-string is never a valid
type). -/
def validCalloutTypeVal : Val → Bool
  | .vstr s => is_valid_callout_type s
  | _ => false

/-- `validate_callout` check 1: `raw` present, a string, non-blank. -/
def rawFieldErrors (callout : PyDict) : List String :=
  let raw := dictGetD callout "raw" (.vstr "")
  let bad : Bool := match raw with
    | .vstr s => s = "" ∨ (pyStripChars s.data).isEmpty
    | _ => true  -- `not isinstance(raw, str)`
  if bad then ["missing 'raw' field"] else []

/-- `validate_callout` check 2: recognized `calloutType`. -/
def calloutTypeErrors (callout_type : Val) : List String :=
  if ¬ pyTruthy callout_type then ["missing 'calloutType'"]
  else if ¬ validCalloutTypeVal callout_type then
    ["unknown calloutType '" ++ pyStrVal callout_type ++ "'"]
  else []

/-- `validate_callout` check 3: required fields present and non-blank. -/
def requiredFieldErrors (callout : PyDict) (callout_type : Val) : List String :=
  match callout_type with
  | .vstr ts =>
    if pyTruthy (.vstr ts) ∧ is_valid_callout_type ts then
      (get_required_fields ts).filterMap fun field =>
        let value := dictGet callout field
        let missing : Bool := match value with
          | .vnone => true
          | .vstr s => (pyStripChars s.data).isEmpty
          | _ => false
        if missing then
          some ("missing required field '" ++ field ++ "' for " ++ ts)
        else none
    else []
  | _ => []

/-- `validate_callout` check 4: numeric fields non-negative (string values
pass through; `True`/`False` are ints ≥ 0 in Python). -/
def positiveNumericErrors (callout : PyDict) : List String :=
  POSITIVE_NUMERIC_FIELDS.filterMap fun field =>
    match dictGet callout field with
    | .vint n =>
      if n < 0 then
        some ("negative value for '" ++ field ++ "': " ++ toString n)
      else none
    | .vfloat q =>
      if q < 0 then
        some ("negative value for '" ++ field ++ "': " ++ pyStrFloat q)
      else none
    | _ => none

/-- `validate_callout` check 5: angle fields in `[0, 360]` (strings are
float()-parsed, parse failures and non-numbers pass — the except branch). -/
def angleErrors (callout : PyDict) : List String :=
  ANGLE_FIELDS.filterMap fun field =>
    let value := dictGet callout field
    let angle : Option ℚ := match value with
      | .vnone => none
      | .vstr s => parseFloatString s.data
      | v => numVal v
    match angle with
    | some a =>
      if ¬ (0 ≤ a ∧ a ≤ 360) then
        some ("angle out of range for '" ++ field ++ "': " ++ pyStrVal value)
      else none
    | none => none

/-- `validate_callout` check 6: quantity fields positive ints under
`int(value)`. -/
def quantityErrors (callout : PyDict) : List String :=
  QUANTITY_FIELDS.filterMap fun field =>
    match dictGet callout field with
    | .vnone => none
    | v =>
      match pyToInt v with
      | some q =>
        if q ≤ 0 then
          some ("non-positive quantity for '" ++ field ++ "': " ++ pyStrVal v)
        else none
      | none => some ("non-integer quantity for '" ++ field ++ "': " ++ pyStrVal v)

/-- All `validate_callout` check failures, in source order. -/
def calloutErrors (callout : PyDict) : List String :=
  let callout_type := dictGetD callout "calloutType" (.vstr "")
  rawFieldErrors callout ++ calloutTypeErrors callout_type ++
    requiredFieldErrors callout callout_type ++ positiveNumericErrors callout ++
    angleErrors callout ++ quantityErrors callout

/-- Function `validate_callout`: on any failure the callout is repaired, not
dropped — kind forced to Unknown, original kind and the semicolon-joined
failure list preserved. -/
def validate_callout (callout : PyDict) : PyDict × Bool × Option String :=
  let errors := calloutErrors callout
  if errors.isEmpty then (callout, true, none)
  else
    let error_msg := String.intercalate "; " errors
    let repaired := dictSet (dictSet (dictSet (dictSet callout
      "_original_calloutType" (dictGetD callout "calloutType" (.vstr "")))
      "calloutType" (.vstr "Unknown")) "_invalid" (.vbool true))
      "_validation_error" (.vstr error_msg)
    (repaired, false, some error_msg)

/-- Aggregate statistics of `validate_and_repair_all`. -/
structure ValidationStats where
  valid : ℕ
  invalid : ℕ
  total : ℕ
  errors : List (String × ℕ)
deriving Repr, DecidableEq

/-- Histogram bump `errors[e] = errors.get(e, 0) + 1`. -/
def histIncr : List (String × ℕ) → String → List (String × ℕ)
  | [], k => [(k, 1)]
  | (k', n) :: rest, k =>
    if k' = k then (k', n + 1) :: rest else (k', n) :: histIncr rest k

/-- Loop body of `validate_and_repair_all`: append the repaired callout and
update the statistics. -/
def validateStep (acc : List PyDict × ValidationStats) (callout : PyDict) :
    List PyDict × ValidationStats :=
  let (repaired, stats) := acc
  let (result, is_valid, error) := validate_callout callout
  let repaired := repaired ++ [result]
  if is_valid then
    (repaired, { stats with valid := stats.valid + 1 })
  else
    let errHist := match error with
      | some e =>
        if e ≠ "" then (e.splitOn "; ").foldl histIncr stats.errors
        else stats.errors
      | none => stats.errors
    (repaired, { stats with invalid := stats.invalid + 1, errors := errHist })

/-- Function `validate_and_repair_all`: validate every callout, keeping all
of them, and accumulate valid/invalid counts plus a reason histogram. -/
def validate_and_repair_all (callouts : List PyDict) :
    List PyDict × ValidationStats :=
  callouts.foldl validateStep
    ([], { valid := 0, invalid := 0, total := callouts.length, errors := [] })

/-! ## Diff aggregation (`ai_inspector/comparison/diff_result.py`)

`compare_drawing` is polymorphic in the CAD JSON type and takes the feature
extractor (`SwFeatureExtractor.extract`) as a parameter: extraction is
upstream of every claim settled here.  `sw_data = none` models the Python
falsy case (`None` or an empty JSON payload), and the wall-clock timestamp
is the parameter `now` (the source calls `datetime.now()`). -/

/-- The fields of `DrawingEvidence` that `compare_drawing` reads. -/
structure DrawingEvidence where
  part_number : String := ""
  found_callouts : List PyDict := []
deriving Repr

structure DiffEntry where
  category : String
  status : String
  drawing_value : String := ""
  sw_value : String := ""
  delta : Option ℚ := none
  notes : String := ""
deriving Repr

structure DiffResult where
  schema_version : String := "1.0.0"
  part_number : String := ""
  compared_at : String := ""
  has_sw_data : Bool := false
  match_rate : ℚ := 0.0
  summary : List (String × ℕ) := []
  entries : List DiffEntry := []
  drawing_evidence : Option DrawingEvidence := none
  sw_feature_count : ℕ := 0
deriving Repr

/-- Truthiness of the optional callout side of a MatchResult (`None` and the
empty dict are falsy). -/
def calloutSideTruthy : Option (ℕ × PyDict) → Bool
  | some (_, c) => !c.isEmpty
  | none => false

/-- Category/display-value rendering of a thread dict
(`f"M{t['nominalDiameterMm']}x{t.get('pitch', '?')}"` and the fraction
form). -/
def threadDisplay (t : PyDict) : Option String :=
  if dictHas t "nominalDiameterMm" then
    some ("M" ++ pyStrVal (dictGet t "nominalDiameterMm") ++ "x" ++
      pyStrVal (dictGetD t "pitch" (.vstr "?")))
  else if dictHas t "fraction" then
    some (pyStrVal (dictGet t "fraction") ++ "-" ++
      pyStrVal (dictGetD t "tpi" (.vstr "?")))
  else none

/-- Function `_match_result_to_entry`. -/
def match_result_to_entry (mr : MatchResult) : DiffEntry :=
  let category :=
    if calloutSideTruthy mr.drawing_callout then
      match mr.drawing_callout with
      | some (_, c) => pyStrVal (dictGetD c "calloutType" (.vstr "unknown"))
      | none => "unknown"
    else
      match mr.sw_feature with
      | some (_, f) => f.feature_type
      | none => "unknown"
  let drawing_val :=
    if calloutSideTruthy mr.drawing_callout then
      match mr.drawing_callout with
      | some (_, c) =>
        let dv := pyStrVal (dictGetD c "raw" (.vstr ""))
        if dv ≠ "" then dv
        else if dictHas c "thread" then
          (match dictGet c "thread" with
            | .vdict t => (threadDisplay t).getD ""
            | _ => "")
        else if dictHas c "diameterInches" then
          (match numField c "diameterInches" with
            | some q => pyFormatFixed q 4 ++ "\""
            | none => "")
        else if dictHas c "radiusInches" then
          (match numField c "radiusInches" with
            | some q => "R" ++ pyFormatFixed q 3 ++ "\""
            | none => "")
        else ""
      | none => ""
    else ""
  let sw_val :=
    match mr.sw_feature with
    | some (_, f) =>
      (match f.thread with
        | some t =>
          if !t.isEmpty then
            (match threadDisplay t with
              | some s => s
              | none => if dictHas t "raw" then pyStrVal (dictGet t "raw") else "")
          else swValNumeric f
        | none => swValNumeric f)
    | none => ""
  { category := category
    status := mr.status.value
    drawing_value := drawing_val
    sw_value := sw_val
    delta := mr.delta
    notes := mr.notes }
where
  /-- Numeric fallbacks for the SW display value (`elif
  mr.sw_feature.diameter_inches: …` — note Python truthiness: a zero
  diameter falls through). -/
  swValNumeric (f : SwFeature) : String :=
    match f.diameter_inches with
    | some q =>
      if q ≠ 0 then pyFormatFixed q 4 ++ "\""
      else radiusDisplay f
    | none => radiusDisplay f
  radiusDisplay (f : SwFeature) : String :=
    match f.radius_inches with
    | some q => if q ≠ 0 then "R" ++ pyFormatFixed q 3 ++ "\"" else ""
    | none => ""

/-- Function `compare_drawing`: compare drawing evidence against CAD data,
producing the stub result when no CAD data exists. -/
def compare_drawing {σ : Type} (cfg : Config) (extract : σ → List SwFeature)
    (now : String) (evidence : DrawingEvidence) (sw_data : Option σ) : DiffResult :=
  let base : DiffResult :=
    { part_number := evidence.part_number
      compared_at := now ++ "Z"
      drawing_evidence := some evidence }
  match sw_data with
  | none =>
    -- no SW data: well-formed stub, every callout unverified
    { base with
      has_sw_data := false
      summary := [("matched", 0), ("missing", 0),
                  ("extra", evidence.found_callouts.length), ("tolerance_fail", 0)]
      entries := evidence.found_callouts.map fun c =>
        { category := match dictFind c "calloutType" with
            | some v => pyStrVal v
            | none => "unknown"
          status := "unverified"
          drawing_value := match dictFind c "raw" with
            | some v => pyStrVal v
            | none => pyReprDict c
          notes := "No SolidWorks data available for verification" } }
  | some d =>
    let sw_features := extract d
    let drawing_callouts := evidence.found_callouts
    let match_results := match_all cfg defaultMatcher drawing_callouts sw_features
    let entries := match_results.map match_result_to_entry
    let matched := (match_results.filter (·.status = .matched)).length
    let missing := (match_results.filter (·.status = .missing)).length
    let extra := (match_results.filter (·.status = .extra)).length
    let tolerance_fail := (match_results.filter (·.status = .tolerance_fail)).length
    let total_sw := sw_features.length
    { base with
      has_sw_data := true
      sw_feature_count := sw_features.length
      entries := entries
      summary := [("matched", matched), ("missing", missing),
                  ("extra", extra), ("tolerance_fail", tolerance_fail)]
      match_rate :=
        if total_sw > 0 then (matched : ℚ) / (total_sw : ℚ)
        else if extra = 0 then 1.0 else 0.0 }

/-! ## Observables used by the theorems -/

/-- Index of the callout instance a MatchResult holds, if any. -/
def calloutIdx (r : MatchResult) : Option ℕ := r.drawing_callout.map Prod.fst

/-- Index of the SW feature instance a MatchResult holds, if any. -/
def swFeatIdx (r : MatchResult) : Option ℕ := r.sw_feature.map Prod.fst

/-- How often callout instance `i` appears in a result list. -/
def countCallout (rs : List MatchResult) (i : ℕ) : ℕ :=
  rs.countP (fun r => calloutIdx r == some i)

/-- How often SW feature instance `j` appears in a result list. -/
def countSw (rs : List MatchResult) (j : ℕ) : ℕ :=
  rs.countP (fun r => swFeatIdx r == some j)

/-- Presence pattern demanded of each status: both sides for
Matched/ToleranceFail, only the feature for Missing, only the callout for
Extra, and exactly one side for Skipped. -/
def statusShape (r : MatchResult) : Bool :=
  match r.status with
  | .matched => r.drawing_callout.isSome && r.sw_feature.isSome
  | .tolerance_fail => r.drawing_callout.isSome && r.sw_feature.isSome
  | .missing => !r.drawing_callout.isSome && r.sw_feature.isSome
  | .extra => r.drawing_callout.isSome && !r.sw_feature.isSome
  | .skipped => r.drawing_callout.isSome != r.sw_feature.isSome

/-- Status of a comparator outcome. -/
def cmpStatus (o : Option (MatchResult × ℚ)) : Option MatchStatus :=
  o.map (·.1.status)

/-- Recorded delta of a comparator outcome. -/
def cmpDelta (o : Option (MatchResult × ℚ)) : Option (Option ℚ) :=
  o.map (·.1.delta)

/-- Invariant tying a partial matching state (results, used SW indices, used
callout indices) together: result multiplicity equals used-list multiplicity
on both sides, used lists are duplicate-free and satisfy the given side
conditions, and every result has the status/presence shape. -/
@[reducible] def MatchState (Pc Pj : ℕ → Prop)
    (st : List MatchResult × List ℕ × List ℕ) : Prop :=
  (∀ i, countCallout st.1 i = st.2.2.count i) ∧
  (∀ j, countSw st.1 j = st.2.1.count j) ∧
  st.2.2.Nodup ∧ st.2.1.Nodup ∧
  (∀ i ∈ st.2.2, Pc i) ∧ (∀ j ∈ st.2.1, Pj j) ∧
  st.1.all statusShape = true

/-! # Theorems

Dictionary access lemmas, then one theorem (with counterexample/witness
companions where required) per specification claim. -/

theorem dictFind_dictSet_self (d : PyDict) (k : String) (v : Val) :
    dictFind (dictSet d k v) k = some v := by
  induction d with
  | nil => simp [dictSet, dictFind]
  | cons hd tl ih =>
    by_cases h : hd.1 = k <;> simp [dictSet, dictFind, h, ih]

theorem dictFind_dictSet_ne (d : PyDict) (k k' : String) (v : Val)
    (h : k' ≠ k) : dictFind (dictSet d k v) k' = dictFind d k' := by
  induction d with
  | nil => simp [dictSet, dictFind, Ne.symm h]
  | cons hd tl ih =>
    by_cases h1 : hd.1 = k <;> by_cases h2 : hd.1 = k' <;>
      simp_all [dictSet, dictFind]

theorem dictGet_dictSet_self (d : PyDict) (k : String) (v : Val) :
    dictGet (dictSet d k v) k = v := by
  simp [dictGet, dictGetD, dictFind_dictSet_self]

theorem dictGet_dictSet_ne (d : PyDict) (k k' : String) (v : Val)
    (h : k' ≠ k) : dictGet (dictSet d k v) k' = dictGet d k' := by
  simp [dictGet, dictGetD, dictFind_dictSet_ne _ _ _ _ h]

/-- C8 counterexample: `canonicalize` is not idempotent.  The European
decimal-comma rule replaces non-overlapping `digit,digit` groups once per
pass, so `"1,2,3"` becomes `"1.2,3"`, which a second pass turns into
`"1.2.3"`. -/
theorem canonicalize_not_idempotent :
    canonicalize (canonicalize "1,2,3") ≠ canonicalize "1,2,3" := by
  decide

/-- C8: amended claim.  `canonicalize` is total (it is a function on all
strings and maps empty input to empty output), but idempotence fails in
general: re-canonicalizing can rewrite overlapping comma-decimal chains.
The narrowly-scoped leading-decimal repair is stable under a second pass
(`⌀52 THRU` example). -/
theorem canonicalize_total_empty_and_comma_chain :
    canonicalize "" = "" ∧
    canonicalize "1,2,3" = "1.2,3" ∧
    canonicalize "1.2,3" = "1.2.3" ∧
    canonicalize (canonicalize "⌀52 THRU") = canonicalize "⌀52 THRU" := by
  refine ⟨rfl, by decide, by decide, by decide⟩

/-- C9: with no CAD data at all, `compare_drawing` produces a well-formed
stub: `has_sw_data = false`, zero extracted requirements, one `unverified`
entry per supplied callout — and it is distinguishable from a real
zero-requirement comparison, whose `has_sw_data` is `true`. -/
theorem compare_drawing_no_sw_data_stub {σ : Type} (cfg : Config)
    (extract : σ → List SwFeature) (now : String) (ev : DrawingEvidence) :
    (compare_drawing cfg extract now ev none).has_sw_data = false ∧
    (compare_drawing cfg extract now ev none).sw_feature_count = 0 ∧
    (compare_drawing cfg extract now ev none).entries.length =
      ev.found_callouts.length ∧
    ((compare_drawing cfg extract now ev none).entries.all
      fun e => e.status == "unverified") = true ∧
    (compare_drawing cfg extract now ev none).summary =
      [("matched", 0), ("missing", 0), ("extra", ev.found_callouts.length),
       ("tolerance_fail", 0)] ∧
    ∀ d : σ, (compare_drawing cfg extract now ev (some d)).has_sw_data = true := by
  refine ⟨rfl, rfl, by simp [compare_drawing], ?_, rfl, fun d => rfl⟩
  simp [compare_drawing, List.all_eq_true]

/-- C10: with CAD data present, `match_rate` is (count of Matched results)
divided by the total number of extracted SW features — a denominator that
also counts Skipped and ToleranceFail features — and with zero extracted
features it is 1.0 exactly when there are no Extra results. -/
theorem compare_drawing_match_rate {σ : Type} (cfg : Config)
    (extract : σ → List SwFeature) (now : String) (ev : DrawingEvidence) (d : σ) :
    (compare_drawing cfg extract now ev (some d)).has_sw_data = true ∧
    (compare_drawing cfg extract now ev (some d)).sw_feature_count =
      (extract d).length ∧
    (compare_drawing cfg extract now ev (some d)).match_rate =
      (if 0 < (extract d).length then
        (((match_all cfg defaultMatcher ev.found_callouts (extract d)).filter
            (·.status = .matched)).length : ℚ) / ((extract d).length : ℚ)
       else if ((match_all cfg defaultMatcher ev.found_callouts (extract d)).filter
            (·.status = .extra)).length = 0 then 1.0 else 0.0) := by
  exact ⟨rfl, rfl, rfl⟩

/-- C5 counterexample: `compute_scores` rounds its rates to 4 decimal
places, so with 1 Matched and 2 Missing results the returned
`instance_match_rate` is 0.3333, not the claimed `matched / (matched +
missing + tolerance_fail) = 1/3`. -/
theorem compute_scores_rate_is_rounded :
    (compute_scores [{ status := .matched }, { status := .missing },
      { status := .missing }]).instance_match_rate ≠ 1 / 3 := by
  with_unfolding_all exact of_decide_eq_true rfl

/-- C5: amended claim.  `compute_scores` returns
`instance_match_rate = round(matched / (matched + missing + tolerance_fail), 4)`
and `total_rate = round(matched / (matched + missing + extra +
tolerance_fail), 4)`, each rate 1.0 when its denominator is zero; Skipped
results change no count except `skipped` and no rate (they are excluded from
every denominator); with zero results both rates are 1.0 (Scenario D). -/
theorem compute_scores_spec (results : List MatchResult) :
    ((compute_scores results).instance_match_rate =
      (if 0 < (results.filter (·.status = .matched)).length +
            (results.filter (·.status = .missing)).length +
            (results.filter (·.status = .tolerance_fail)).length then
        pyRound (((results.filter (·.status = .matched)).length : ℚ) /
         (((results.filter (·.status = .matched)).length +
           (results.filter (·.status = .missing)).length +
           (results.filter (·.status = .tolerance_fail)).length : ℕ) : ℚ)) 4
       else 1)) ∧
    ((compute_scores results).total_rate =
      (if 0 < (results.filter (·.status = .matched)).length +
            (results.filter (·.status = .missing)).length +
            (results.filter (·.status = .extra)).length +
            (results.filter (·.status = .tolerance_fail)).length then
        pyRound (((results.filter (·.status = .matched)).length : ℚ) /
         (((results.filter (·.status = .matched)).length +
           (results.filter (·.status = .missing)).length +
           (results.filter (·.status = .extra)).length +
           (results.filter (·.status = .tolerance_fail)).length : ℕ) : ℚ)) 4
       else 1)) ∧
    (compute_scores (results ++ [{ status := .skipped }]) =
      { compute_scores results with
          skipped := (compute_scores results).skipped + 1 }) ∧
    (compute_scores []).instance_match_rate = 1 ∧
    (compute_scores []).total_rate = 1 := by
  have h1 : pyRound 1.0 4 = 1 := by with_unfolding_all exact of_decide_eq_true rfl
  refine ⟨?_, ?_, ?_, ?_, ?_⟩
  · by_cases h : 0 < (results.filter (·.status = .matched)).length +
        (results.filter (·.status = .missing)).length +
        (results.filter (·.status = .tolerance_fail)).length
    · rw [if_pos h]
      show pyRound (ite _ _ _) 4 = _
      rw [if_pos h]
    · rw [if_neg h]
      show pyRound (ite _ _ _) 4 = _
      rw [if_neg h]
      exact h1
  · by_cases h : 0 < (results.filter (·.status = .matched)).length +
        (results.filter (·.status = .missing)).length +
        (results.filter (·.status = .extra)).length +
        (results.filter (·.status = .tolerance_fail)).length
    · rw [if_pos h]
      show pyRound (ite _ _ _) 4 = _
      rw [if_pos h]
    · rw [if_neg h]
      show pyRound (ite _ _ _) 4 = _
      rw [if_neg h]
      exact h1
  · simp +decide [compute_scores, List.filter_append, List.filter]
  · show pyRound (ite _ _ _) 4 = _
    rw [if_neg (by simp [List.filter])]
    exact h1
  · show pyRound (ite _ _ _) 4 = _
    rw [if_neg (by simp [List.filter])]
    exact h1

/-- C2 counterexample: a callout whose `quantity` field is the integer 0 is
clamped for expansion but passed through with its original field value, so
the input's `sum(item.quantity) = 0` differs from the output length 1, and
the expanded item's quantity is 0, not 1. -/
theorem expand_quantity_zero_breaks_invariant :
    (expand_drawing_callouts [[("quantity", Val.vint 0)]]).length = 1 ∧
    ((expand_drawing_callouts [[("quantity", Val.vint 0)]]).all
      fun c => match dictGet c "quantity" with
        | .vint 1 => true
        | _ => false) = false := by
  decide

/-- Lower bound of the clamped quantity. -/
theorem clampQty_one_le (v : Val) : 1 ≤ clampQty v := by
  unfold clampQty
  cases h : pyToInt v <;> simp [h]
  omega

/-- Per-item length of the drawing-callout expansion. -/
theorem expandCalloutOne_length (c : PyDict) :
    (expandCalloutOne c).length =
      (clampQty (dictGetD c "quantity" (.vint 1))).toNat := by
  have h1 := clampQty_one_le (dictGetD c "quantity" (.vint 1))
  by_cases h : clampQty (dictGetD c "quantity" (.vint 1)) = 1
  · simp [expandCalloutOne, h]
  · simp [expandCalloutOne, h]

/-- Per-item length of the SW-feature expansion. -/
theorem expandSwOne_length (f : SwFeature) :
    (expandSwOne f).length = (clampQty (.vint f.quantity)).toNat := by
  have h1 := clampQty_one_le (Val.vint f.quantity)
  by_cases h : clampQty (.vint f.quantity) = 1
  · simp [expandSwOne, h]
  · simp [expandSwOne, h]

/-- C2: amended claim.  Expansion conserves the *clamped* quantity
(`int(quantity)` with invalid values and values `< 1` clamped to 1):
the output length is the sum of clamped quantities on both sides.  An item
with clamped quantity N>1 becomes N items, each with `quantity = 1`, the
drawing side carrying `_instance_index` 0..N-1 (the SW side encodes the
instance in its `location` string instead of an index field).  An item with
clamped quantity 1 passes through with `_instance_index = 0` and its
original `quantity` field value (only the N>1 instances get `quantity`
overwritten to 1). -/
theorem quantity_expansion_conserves_clamped_sum :
    (∀ callouts : List PyDict,
      (expand_drawing_callouts callouts).length =
        (callouts.map fun c =>
          (clampQty (dictGetD c "quantity" (.vint 1))).toNat).sum) ∧
    (∀ features : List SwFeature,
      (expand_sw_features features).length =
        (features.map fun f => (clampQty (.vint f.quantity)).toNat).sum) ∧
    (∀ c : PyDict, 1 < clampQty (dictGetD c "quantity" (.vint 1)) →
      ((expandCalloutOne c).all (fun i =>
          match dictGet i "quantity" with
          | .vint 1 => true
          | _ => false) = true ∧
       (expandCalloutOne c).map (fun i => dictGet i "_instance_index") =
         (List.range (clampQty (dictGetD c "quantity" (.vint 1))).toNat).map
           (fun i : ℕ => Val.vint (i : ℤ)))) ∧
    (∀ c : PyDict, clampQty (dictGetD c "quantity" (.vint 1)) = 1 →
      expandCalloutOne c =
        [dictSet (dictSet c "_instance_index" (.vint 0))
          "_original_quantity" (.vint 1)]) ∧
    (∀ f : SwFeature, 1 < clampQty (.vint f.quantity) →
      (expandSwOne f).all (fun g => g.quantity == 1) = true) ∧
    (∀ f : SwFeature, clampQty (.vint f.quantity) = 1 → expandSwOne f = [f]) := by
  refine ⟨?_, ?_, ?_, ?_, ?_, ?_⟩
  · intro callouts
    induction callouts with
    | nil => rfl
    | cons c rest ih =>
      simp only [expand_drawing_callouts, List.map_cons, List.flatten_cons,
        List.length_append, List.sum_cons] at ih ⊢
      rw [expandCalloutOne_length, ih]
  · intro features
    induction features with
    | nil => rfl
    | cons f rest ih =>
      simp only [expand_sw_features, List.map_cons, List.flatten_cons,
        List.length_append, List.sum_cons] at ih ⊢
      rw [expandSwOne_length, ih]
  · intro c h
    have hne : ¬ clampQty (dictGetD c "quantity" (.vint 1)) = 1 := by omega
    constructor
    · simp only [expandCalloutOne, if_neg hne, List.all_eq_true, List.mem_map]
      rintro _ ⟨i, _, rfl⟩
      rw [dictGet_dictSet_ne _ _ _ _ (by decide),
        dictGet_dictSet_ne _ _ _ _ (by decide), dictGet_dictSet_self]
      rfl
    · simp only [expandCalloutOne, if_neg hne, List.map_map]
      refine List.map_congr_left fun i _ => ?_
      simp only [Function.comp]
      rw [dictGet_dictSet_ne _ _ _ _ (by decide), dictGet_dictSet_self]
  · intro c h
    simp [expandCalloutOne, h]
  · intro f h
    have hne : ¬ clampQty (.vint f.quantity) = 1 := by omega
    simp [expandSwOne, if_neg hne, List.all_eq_true]
  · intro f h
    simp [expandSwOne, h]

/-- C2 witness: the amended claim applied at concrete inputs — a quantity-3
callout expands to 3 instances, and a quantity-1 SW feature passes through
unchanged. -/
theorem quantity_expansion_witness :
    (expand_drawing_callouts [[("quantity", Val.vint 3)]]).length = 3 ∧
    expandSwOne { feature_type := "Hole", quantity := 1 } =
      [{ feature_type := "Hole", quantity := 1 }] := by
  constructor
  · rw [quantity_expansion_conserves_clamped_sum.1 [[("quantity", Val.vint 3)]]]
    decide
  · exact quantity_expansion_conserves_clamped_sum.2.2.2.2.2 _ (by decide)

/-- C3: the hole comparator computes `delta = callout.diameter -
requirement.diameter` and yields Matched when `|delta| ≤ hole_tolerance`
(boundary inclusive), ToleranceFail when `hole_tolerance < |delta| ≤
3 × hole_tolerance`, and no match otherwise. -/
theorem match_hole_spec (m : FeatureMatcher) (ci si : ℕ) (c : PyDict)
    (f : SwFeature) (dc ds : ℚ) (hc : get_callout_diameter c = some dc)
    (hf : f.diameter_inches = some ds) :
    (|dc - ds| ≤ m.hole_tolerance →
      cmpStatus (match_hole m (ci, c) (si, f)) = some .matched ∧
      cmpDelta (match_hole m (ci, c) (si, f)) = some (some (dc - ds))) ∧
    (m.hole_tolerance < |dc - ds| → |dc - ds| ≤ 3 * m.hole_tolerance →
      cmpStatus (match_hole m (ci, c) (si, f)) = some .tolerance_fail ∧
      cmpDelta (match_hole m (ci, c) (si, f)) = some (some (dc - ds))) ∧
    (3 * m.hole_tolerance < |dc - ds| →
      match_hole m (ci, c) (si, f) = none) := by
  refine ⟨fun h1 => ?_, fun h1 h2 => ?_, fun h1 => ?_⟩ <;>
    simp only [match_hole, hc, hf, cmpStatus, cmpDelta]
  · rw [if_pos h1]; exact ⟨rfl, rfl⟩
  · rw [if_neg (by linarith), if_pos (by linarith)]; exact ⟨rfl, rfl⟩
  · rw [if_neg (by linarith [abs_nonneg (dc - ds)]),
      if_neg (by linarith [abs_nonneg (dc - ds)])]

/-- C3 witness (Scenario A): callout diameter 0.500 against requirement
diameter 0.505 with the default `hole_tolerance = 0.015` is Matched with
`delta = -0.005`. -/
theorem match_hole_scenarioA :
    cmpStatus (match_hole defaultMatcher
      (0, [("calloutType", Val.vstr "Hole"), ("diameter", Val.vfloat 0.500)])
      (0, { feature_type := "Hole", diameter_inches := some 0.505 })) =
        some .matched ∧
    cmpDelta (match_hole defaultMatcher
      (0, [("calloutType", Val.vstr "Hole"), ("diameter", Val.vfloat 0.500)])
      (0, { feature_type := "Hole", diameter_inches := some 0.505 })) =
        some (some (-0.005)) := by
  have h := (match_hole_spec defaultMatcher 0 0
    [("calloutType", Val.vstr "Hole"), ("diameter", Val.vfloat 0.500)]
    { feature_type := "Hole", diameter_inches := some 0.505 }
    0.500 0.505 rfl rfl).1
    (by with_unfolding_all exact of_decide_eq_true rfl)
  refine ⟨h.1, h.2.trans (by with_unfolding_all exact of_decide_eq_true rfl)⟩

/-- C4 counterexample: an SW thread whose `pitch` field is present but `0.0`
is falsy in Python, so the pitch check is skipped and the comparator returns
Matched — although both pitches are present, the callout pitch 1.5 is
plausible, and the pitch difference 1.5 exceeds `pitch_tolerance`, where the
claim demands ToleranceFail. -/
theorem match_thread_zero_pitch_matched :
    cmpStatus (match_thread defaultMatcher
      (0, [("calloutType", Val.vstr "TappedHole"),
           ("thread", Val.vdict [("standard", Val.vstr "Metric"),
             ("nominalDiameterMm", Val.vfloat 10), ("pitch", Val.vfloat 1.5)])])
      (0, { feature_type := "TappedHole",
            thread := some [("nominalDiameterMm", Val.vfloat 10),
              ("pitch", Val.vfloat 0)] })) = some .matched ∧
    cmpStatus (match_thread defaultMatcher
      (0, [("calloutType", Val.vstr "TappedHole"),
           ("thread", Val.vdict [("standard", Val.vstr "Metric"),
             ("nominalDiameterMm", Val.vfloat 10), ("pitch", Val.vfloat 1.5)])])
      (0, { feature_type := "TappedHole",
            thread := some [("nominalDiameterMm", Val.vfloat 10),
              ("pitch", Val.vfloat 0)] })) ≠ some .tolerance_fail := by
  constructor <;> with_unfolding_all exact of_decide_eq_true rfl

/-- C4: amended claim.  The thread comparator first compares metric nominal
diameters within `thread_tolerance_mm`; when the diameters match (both
present and nonzero — Python truthiness) and both pitches are present and
*nonzero*, the callout pitch is numerically plausible for a metric thread
(0.2..6.0), and the pitch difference exceeds `pitch_tolerance`, the result
is ToleranceFail with the pitch difference as delta; a zero/absent pitch
skips the check.  Imperial threads (no metric nominal on the callout side)
are compared by TPI equality: equal nonzero TPIs give Matched, unequal give
ToleranceFail. -/
theorem match_thread_spec (m : FeatureMatcher) (ci si : ℕ) (c : PyDict)
    (f : SwFeature) :
    (∀ (ts : PyDict) (cn sn cp sp : ℚ),
      (calloutThreadDict c).isEmpty = false → f.thread = some ts →
      dictGet (calloutThreadDict c) "nominalDiameterMm" = .vfloat cn → cn ≠ 0 →
      dictGet ts "nominalDiameterMm" = .vfloat sn → sn ≠ 0 →
      |cn - sn| ≤ m.thread_tolerance_mm →
      dictGet (calloutThreadDict c) "pitch" = .vfloat cp → cp ≠ 0 →
      dictGet ts "pitch" = .vfloat sp → sp ≠ 0 →
      (0.2 : ℚ) ≤ cp → cp ≤ 6.0 → m.pitch_tolerance < |cp - sp| →
      cmpStatus (match_thread m (ci, c) (si, f)) = some .tolerance_fail ∧
      cmpDelta (match_thread m (ci, c) (si, f)) = some (some (cp - sp))) ∧
    (∀ (ts : PyDict) (ct st : ℚ),
      (calloutThreadDict c).isEmpty = false → f.thread = some ts →
      dictGet (calloutThreadDict c) "nominalDiameterMm" = .vnone →
      dictGet (calloutThreadDict c) "tpi" = .vfloat ct → ct ≠ 0 →
      dictGet ts "tpi" = .vfloat st → st ≠ 0 →
      (ct = st → cmpStatus (match_thread m (ci, c) (si, f)) = some .matched) ∧
      (ct ≠ st →
        cmpStatus (match_thread m (ci, c) (si, f)) = some .tolerance_fail)) := by
  constructor
  · intro ts cn sn cp sp hne hsw hcn hcn0 hsn hsn0 hdia hcp hcp0 hsp hsp0
      hpl1 hpl2 hpt
    simp only [match_thread, effectiveCalloutThread, threadMetricBranch,
      threadPitchCheck, cmpStatus, cmpDelta, hne, hsw, hcn, hsn, hcp, hsp,
      Option.getD_some, Bool.false_eq_true, if_false, numVal, pyTruthy]
    rw [if_pos ⟨by simpa using hcn0, by simpa using hsn0⟩, if_pos hdia,
      if_pos ⟨by simpa using hcp0, by simpa using hsp0⟩, if_pos ⟨⟨hpl1, hpl2⟩, hpt⟩]
    exact ⟨rfl, rfl⟩
  · intro ts ct st hne hsw hnom hct hct0 hst hst0
    constructor
    · intro heq
      simp only [match_thread, effectiveCalloutThread, threadMetricBranch,
        threadTpiBranch, cmpStatus, hne, hsw, hnom, hct, hst,
        Option.getD_some, Bool.false_eq_true, if_false, numVal, pyTruthy]
      rw [if_neg (by simp), if_pos ⟨by simpa using hct0, by simpa using hst0⟩,
        if_pos heq]
      rfl
    · intro hneq
      simp only [match_thread, effectiveCalloutThread, threadMetricBranch,
        threadTpiBranch, cmpStatus, hne, hsw, hnom, hct, hst,
        Option.getD_some, Bool.false_eq_true, if_false, numVal, pyTruthy]
      rw [if_neg (by simp), if_pos ⟨by simpa using hct0, by simpa using hst0⟩,
        if_neg hneq]
      rfl

/-- C4 witness (Scenario B): callout M10 pitch 1.5 against requirement M10
pitch 1.0 with the default tolerances (`thread_tolerance_mm = 0.1`,
`pitch_tolerance = 0.01`) yields ToleranceFail with pitch delta 0.5. -/
theorem match_thread_scenarioB :
    cmpStatus (match_thread defaultMatcher
      (0, [("calloutType", Val.vstr "TappedHole"),
           ("thread", Val.vdict [("standard", Val.vstr "Metric"),
             ("nominalDiameterMm", Val.vfloat 10), ("pitch", Val.vfloat 1.5)])])
      (0, { feature_type := "TappedHole",
            thread := some [("nominalDiameterMm", Val.vfloat 10),
              ("pitch", Val.vfloat 1.0)] })) = some .tolerance_fail := by
  exact ((match_thread_spec defaultMatcher 0 0
      [("calloutType", Val.vstr "TappedHole"),
       ("thread", Val.vdict [("standard", Val.vstr "Metric"),
         ("nominalDiameterMm", Val.vfloat 10), ("pitch", Val.vfloat 1.5)])]
      { feature_type := "TappedHole",
        thread := some [("nominalDiameterMm", Val.vfloat 10),
          ("pitch", Val.vfloat 1.0)] }).1
    [("nominalDiameterMm", Val.vfloat 10), ("pitch", Val.vfloat 1.0)]
    10 10 1.5 1.0 rfl rfl rfl
    (by with_unfolding_all exact of_decide_eq_true rfl) rfl
    (by with_unfolding_all exact of_decide_eq_true rfl)
    (by with_unfolding_all exact of_decide_eq_true rfl) rfl
    (by with_unfolding_all exact of_decide_eq_true rfl) rfl
    (by with_unfolding_all exact of_decide_eq_true rfl)
    (by with_unfolding_all exact of_decide_eq_true rfl)
    (by with_unfolding_all exact of_decide_eq_true rfl)
    (by with_unfolding_all exact of_decide_eq_true rfl)).1

/-- C6: `normalize_callout` resolves units by fixed priority: a callout-level
hint from the raw text wins first (method `callout_hint`); else a
drawing-level unit declaration (method `drawing_hint`); else dual-hypothesis
resolution, which picks the hypothesis with strictly more plausible fields
and on a tie (including nothing checkable) defaults to inches with the
method marked ambiguous. -/
theorem normalize_callout_priority (parsed : PyDict) (raw_text : String)
    (drawing_units : Option String) (hne : parsed.isEmpty = false) :
    (truthyStrOpt (detect_callout_units raw_text) = true →
      dictGet (normalize_callout parsed raw_text drawing_units)
          "_normalization_method" = .vstr "callout_hint" ∧
      dictGet (normalize_callout parsed raw_text drawing_units)
          "_detected_units" = .vstr ((detect_callout_units raw_text).getD "")) ∧
    (truthyStrOpt (detect_callout_units raw_text) = false →
      truthyStrOpt drawing_units = true →
      dictGet (normalize_callout parsed raw_text drawing_units)
          "_normalization_method" = .vstr "drawing_hint" ∧
      dictGet (normalize_callout parsed raw_text drawing_units)
          "_detected_units" = .vstr (drawing_units.getD "")) ∧
    (truthyStrOpt (detect_callout_units raw_text) = false →
      truthyStrOpt drawing_units = false →
      dictGet (normalize_callout parsed raw_text drawing_units)
          "_normalization_method" = .vstr (dual_hypothesis parsed).2 ∧
      dictGet (normalize_callout parsed raw_text drawing_units)
          "_detected_units" = .vstr (dual_hypothesis parsed).1) ∧
    ((plausibleCounts parsed).2.1 > (plausibleCounts parsed).1 →
      (plausibleCounts parsed).2.2 ≠ 0 →
      dual_hypothesis parsed = ("mm", "dual_hypothesis")) ∧
    ((plausibleCounts parsed).1 > (plausibleCounts parsed).2.1 →
      (plausibleCounts parsed).2.2 ≠ 0 →
      dual_hypothesis parsed = ("inch", "dual_hypothesis")) ∧
    ((plausibleCounts parsed).1 = (plausibleCounts parsed).2.1 →
      dual_hypothesis parsed = ("inch", "dual_hypothesis_ambiguous")) := by
  have hget : ∀ (d : PyDict) (v1 v2 v3 : Val),
      dictGet (dictSet (dictSet (dictSet d "_detected_units" v1)
        "_drawing_units" v2) "_normalization_method" v3) "_normalization_method"
        = v3 ∧
      dictGet (dictSet (dictSet (dictSet d "_detected_units" v1)
        "_drawing_units" v2) "_normalization_method" v3) "_detected_units"
        = v1 := by
    intro d v1 v2 v3
    refine ⟨dictGet_dictSet_self _ _ _, ?_⟩
    rw [dictGet_dictSet_ne _ _ _ _ (by decide),
      dictGet_dictSet_ne _ _ _ _ (by decide), dictGet_dictSet_self]
  refine ⟨fun h1 => ?_, fun h1 h2 => ?_, fun h1 h2 => ?_, fun h1 h2 => ?_,
    fun h1 h2 => ?_, fun h1 => ?_⟩
  · simp only [normalize_callout, hne, Bool.false_eq_true, if_false, h1,
      if_true]
    exact hget _ _ _ _
  · simp only [normalize_callout, hne, Bool.false_eq_true, if_false, h1, h2,
      if_true]
    exact hget _ _ _ _
  · simp only [normalize_callout, hne, Bool.false_eq_true, if_false, h1, h2]
    exact hget _ _ _ _
  · simp only [dual_hypothesis]
    rcases hp : plausibleCounts parsed with ⟨ic, mc, tc⟩
    simp only [hp] at h1 h2 ⊢
    rw [if_neg h2, if_pos h1]
  · simp only [dual_hypothesis]
    rcases hp : plausibleCounts parsed with ⟨ic, mc, tc⟩
    simp only [hp] at h1 h2 ⊢
    rw [if_neg h2, if_neg (by omega), if_pos h1]
  · simp only [dual_hypothesis]
    rcases hp : plausibleCounts parsed with ⟨ic, mc, tc⟩
    simp only [hp] at h1 ⊢
    by_cases h0 : tc = 0
    · rw [if_pos h0]
    · rw [if_neg h0, if_neg (by omega), if_neg (by omega)]

/-- C6 witness (Scenario C): a title block declaring
"UNLESS OTHERWISE SPECIFIED ALL DIMENSIONS ARE IN INCHES" is detected as
inches, and a callout with no raw-text unit hint and a `diameter` of "0.500"
is normalized with `detected_units = "inch"`, `method = "drawing_hint"`, and
the diameter converted (factor 1) to 0.5 inches. -/
theorem normalize_callout_scenarioC :
    detect_drawing_units
        "UNLESS OTHERWISE SPECIFIED ALL DIMENSIONS ARE IN INCHES" =
      some "inch" ∧
    dictGet (normalize_callout
        [("calloutType", Val.vstr "Hole"), ("diameter", Val.vstr "0.500")] ""
        (detect_drawing_units
          "UNLESS OTHERWISE SPECIFIED ALL DIMENSIONS ARE IN INCHES"))
      "_normalization_method" = Val.vstr "drawing_hint" ∧
    dictGet (normalize_callout
        [("calloutType", Val.vstr "Hole"), ("diameter", Val.vstr "0.500")] ""
        (detect_drawing_units
          "UNLESS OTHERWISE SPECIFIED ALL DIMENSIONS ARE IN INCHES"))
      "_detected_units" = Val.vstr "inch" ∧
    dictGet (normalize_callout
        [("calloutType", Val.vstr "Hole"), ("diameter", Val.vstr "0.500")] ""
        (detect_drawing_units
          "UNLESS OTHERWISE SPECIFIED ALL DIMENSIONS ARE IN INCHES"))
      "diameter" = Val.vfloat 0.5 := by
  have hd : detect_drawing_units
      "UNLESS OTHERWISE SPECIFIED ALL DIMENSIONS ARE IN INCHES" = some "inch" := by
    with_unfolding_all exact of_decide_eq_true rfl
  have h := (normalize_callout_priority
    [("calloutType", Val.vstr "Hole"), ("diameter", Val.vstr "0.500")] ""
    (some "inch") rfl).2.1 rfl rfl
  rw [hd]
  exact ⟨rfl, h.1, h.2, by with_unfolding_all rfl⟩

/-- Accumulator behavior of the `validate_and_repair_all` fold. -/
theorem validate_fold_aux (cs : List PyDict) (acc : List PyDict × ValidationStats) :
    (cs.foldl validateStep acc).1 =
      acc.1 ++ cs.map (fun c => (validate_callout c).1) ∧
    (cs.foldl validateStep acc).2.valid =
      acc.2.valid + cs.countP (fun c => (validate_callout c).2.1) ∧
    (cs.foldl validateStep acc).2.invalid =
      acc.2.invalid + cs.countP (fun c => !(validate_callout c).2.1) ∧
    (cs.foldl validateStep acc).2.total = acc.2.total := by
  induction cs generalizing acc with
  | nil => simp
  | cons c rest ih =>
    simp only [List.foldl_cons, List.map_cons, List.countP_cons]
    have hstep : ∀ a, (validateStep a c).1 = a.1 ++ [(validate_callout c).1] ∧
        (validateStep a c).2.valid =
          a.2.valid + (if (validate_callout c).2.1 then 1 else 0) ∧
        (validateStep a c).2.invalid =
          a.2.invalid + (if !(validate_callout c).2.1 then 1 else 0) ∧
        (validateStep a c).2.total = a.2.total := by
      intro a
      rcases hv : validate_callout c with ⟨result, is_valid, error⟩
      cases is_valid <;> simp [validateStep, hv]
    have := ih (validateStep acc c)
    refine ⟨?_, ?_, ?_, ?_⟩
    · rw [this.1, (hstep acc).1]; simp
    · rw [this.2.1, (hstep acc).2.1]; omega
    · rw [this.2.2.1, (hstep acc).2.2.1]; omega
    · rw [this.2.2.2, (hstep acc).2.2.2]

/-- C7: `validate_and_repair_all` returns exactly one output callout per
input callout (no callout is ever dropped); every callout failing any check
is returned with its kind forced to `Unknown`, its original kind preserved
in `_original_calloutType`, and the semicolon-joined list of every failing
check attached as the invalid reason; and the stats carry matching valid and
invalid counts (`valid + invalid = total = len(input)`), alongside the
reason histogram accumulated from the per-callout reasons. -/
theorem validate_and_repair_all_spec (callouts : List PyDict) :
    (validate_and_repair_all callouts).1 =
      callouts.map (fun c => (validate_callout c).1) ∧
    (validate_and_repair_all callouts).1.length = callouts.length ∧
    (validate_and_repair_all callouts).2.total = callouts.length ∧
    (validate_and_repair_all callouts).2.valid =
      callouts.countP (fun c => (validate_callout c).2.1) ∧
    (validate_and_repair_all callouts).2.invalid =
      callouts.countP (fun c => !(validate_callout c).2.1) ∧
    (validate_and_repair_all callouts).2.valid +
      (validate_and_repair_all callouts).2.invalid = callouts.length ∧
    (∀ c : PyDict, (calloutErrors c).isEmpty = false →
      (validate_callout c).2.1 = false ∧
      dictGet (validate_callout c).1 "calloutType" = .vstr "Unknown" ∧
      dictGet (validate_callout c).1 "_original_calloutType" =
        dictGetD c "calloutType" (.vstr "") ∧
      dictGet (validate_callout c).1 "_validation_error" =
        .vstr (String.intercalate "; " (calloutErrors c)) ∧
      (validate_callout c).2.2 =
        some (String.intercalate "; " (calloutErrors c))) ∧
    (∀ c : PyDict, (calloutErrors c).isEmpty = true →
      validate_callout c = (c, true, none)) := by
  have key := validate_fold_aux callouts
    ([], { valid := 0, invalid := 0, total := callouts.length, errors := [] })
  have h1 : (validate_and_repair_all callouts).1 =
      callouts.map (fun c => (validate_callout c).1) := by
    rw [show (validate_and_repair_all callouts).1 = _ from congrArg Prod.fst rfl]
    exact key.1.trans (by simp)
  have hval : (validate_and_repair_all callouts).2.valid =
      callouts.countP (fun c => (validate_callout c).2.1) :=
    key.2.1.trans (by simp)
  have hinv : (validate_and_repair_all callouts).2.invalid =
      callouts.countP (fun c => !(validate_callout c).2.1) :=
    key.2.2.1.trans (by simp)
  refine ⟨h1, by rw [h1]; simp, key.2.2.2, hval, hinv, ?_, ?_, ?_⟩
  · rw [hval, hinv]
    have hcount : ∀ l : List PyDict,
        l.countP (fun c => (validate_callout c).2.1) +
          l.countP (fun c => !(validate_callout c).2.1) = l.length := by
      intro l
      induction l with
      | nil => rfl
      | cons x xs ih =>
        by_cases hx : (validate_callout x).2.1 = true <;>
          simp [List.countP_cons, hx] <;> omega
    exact hcount callouts
  · intro c h
    have hv : validate_callout c =
        (dictSet (dictSet (dictSet (dictSet c
          "_original_calloutType" (dictGetD c "calloutType" (.vstr "")))
          "calloutType" (.vstr "Unknown")) "_invalid" (.vbool true))
          "_validation_error" (.vstr (String.intercalate "; " (calloutErrors c))),
         false, some (String.intercalate "; " (calloutErrors c))) := by
      simp only [validate_callout, h, Bool.false_eq_true, if_false]
    rw [hv]
    refine ⟨rfl, ?_, ?_, ?_, rfl⟩
    · rw [dictGet_dictSet_ne _ _ _ _ (by decide),
        dictGet_dictSet_ne _ _ _ _ (by decide), dictGet_dictSet_self]
    · rw [dictGet_dictSet_ne _ _ _ _ (by decide),
        dictGet_dictSet_ne _ _ _ _ (by decide),
        dictGet_dictSet_ne _ _ _ _ (by decide), dictGet_dictSet_self]
    · rw [dictGet_dictSet_self]
  · intro c h
    simp only [validate_callout, h, if_true]

/-- C7 witness: a concrete invalid callout (blank raw text, unknown type,
negative diameter, zero quantity) is repaired, not dropped, with its kind
forced to Unknown and all four failing checks joined into the reason. -/
theorem validate_and_repair_witness :
    (validate_and_repair_all [[("raw", Val.vstr ""),
        ("calloutType", Val.vstr "Bogus"), ("diameter", Val.vfloat (-1)),
        ("quantity", Val.vint 0)]]).1.length = 1 ∧
    dictGet (validate_callout [("raw", Val.vstr ""),
        ("calloutType", Val.vstr "Bogus"), ("diameter", Val.vfloat (-1)),
        ("quantity", Val.vint 0)]).1 "calloutType" = Val.vstr "Unknown" ∧
    (validate_callout [("raw", Val.vstr ""),
        ("calloutType", Val.vstr "Bogus"), ("diameter", Val.vfloat (-1)),
        ("quantity", Val.vint 0)]).2.2 =
      some ("missing 'raw' field; unknown calloutType 'Bogus'; " ++
        "negative value for 'diameter': -1.0; " ++
        "non-positive quantity for 'quantity': 0") := by
  have h := validate_and_repair_all_spec [[("raw", Val.vstr ""),
    ("calloutType", Val.vstr "Bogus"), ("diameter", Val.vfloat (-1)),
    ("quantity", Val.vint 0)]]
  have hc := h.2.2.2.2.2.2.1 [("raw", Val.vstr ""),
    ("calloutType", Val.vstr "Bogus"), ("diameter", Val.vfloat (-1)),
    ("quantity", Val.vint 0)] (by with_unfolding_all rfl)
  refine ⟨h.2.1, hc.2.1, hc.2.2.2.2.trans ?_⟩
  with_unfolding_all rfl


/-- Any successful pitch-check result carries both instances and a Matched or ToleranceFail status. -/
theorem tPC_shape (m : FeatureMatcher) (cp : ℕ × PyDict)
    (swp : ℕ × SwFeature) (ct st : PyDict) (d : ℚ) (mr : MatchResult) (d' : ℚ)
    (h : threadPitchCheck m cp swp ct st d = some (mr, d')) :
    mr.drawing_callout = some cp ∧ mr.sw_feature = some swp ∧
    (mr.status = .matched ∨ mr.status = .tolerance_fail) := by
  simp only [threadPitchCheck] at h
  repeat' split at h
  all_goals try
    (simp only [Option.some.injEq, Prod.mk.injEq] at h
     rcases h with ⟨h1, -⟩
     subst h1
     simp)
  all_goals simp at h

/-- Any successful metric-branch result carries both instances and a Matched or ToleranceFail status. -/
theorem tMB_shape (m : FeatureMatcher) (cp : ℕ × PyDict)
    (swp : ℕ × SwFeature) (ct st : PyDict) (mr : MatchResult) (d' : ℚ)
    (h : threadMetricBranch m cp swp ct st = some (mr, d')) :
    mr.drawing_callout = some cp ∧ mr.sw_feature = some swp ∧
    (mr.status = .matched ∨ mr.status = .tolerance_fail) := by
  simp only [threadMetricBranch] at h
  repeat' split at h
  all_goals try
    (simp only [Option.some.injEq, Prod.mk.injEq] at h
     rcases h with ⟨h1, -⟩
     subst h1
     simp)
  all_goals try simp at h
  subst h
  exact tPC_shape _ _ _ _ _ _ _ _ (by assumption)

/-- Any successful TPI-branch result carries both instances and a Matched or ToleranceFail status. -/
theorem tTB_shape (m : FeatureMatcher) (cp : ℕ × PyDict)
    (swp : ℕ × SwFeature) (ct st : PyDict) (mr : MatchResult) (d' : ℚ)
    (h : threadTpiBranch m cp swp ct st = some (mr, d')) :
    mr.drawing_callout = some cp ∧ mr.sw_feature = some swp ∧
    (mr.status = .matched ∨ mr.status = .tolerance_fail) := by
  simp only [threadTpiBranch] at h
  repeat' split at h
  all_goals try
    (simp only [Option.some.injEq, Prod.mk.injEq] at h
     rcases h with ⟨h1, -⟩
     subst h1
     simp)
  all_goals simp at h

/-- Any successful thread comparison carries both instances and a Matched or ToleranceFail status. -/
theorem match_thread_shape (m : FeatureMatcher) (cp : ℕ × PyDict)
    (swp : ℕ × SwFeature) (mr : MatchResult) (d' : ℚ)
    (h : match_thread m cp swp = some (mr, d')) :
    mr.drawing_callout = some cp ∧ mr.sw_feature = some swp ∧
    (mr.status = .matched ∨ mr.status = .tolerance_fail) := by
  simp only [match_thread] at h
  split at h
  · rename_i r heq
    cases r
    simp only [Option.some.injEq, Prod.mk.injEq] at h
    rcases h with ⟨h1, -⟩
    subst h1
    exact tMB_shape _ _ _ _ _ _ _ heq
  · exact tTB_shape _ _ _ _ _ _ _ h

/-- Any successful hole comparison carries both instances and a Matched or ToleranceFail status. -/
theorem match_hole_shape (m : FeatureMatcher) (cp : ℕ × PyDict)
    (swp : ℕ × SwFeature) (mr : MatchResult) (d' : ℚ)
    (h : match_hole m cp swp = some (mr, d')) :
    mr.drawing_callout = some cp ∧ mr.sw_feature = some swp ∧
    (mr.status = .matched ∨ mr.status = .tolerance_fail) := by
  simp only [match_hole] at h
  repeat' split at h
  all_goals try
    (simp only [Option.some.injEq, Prod.mk.injEq] at h
     rcases h with ⟨h1, -⟩
     subst h1
     simp)
  all_goals simp at h

/-- Any successful fillet comparison carries both instances and a Matched or ToleranceFail status. -/
theorem match_fillet_shape (m : FeatureMatcher) (cp : ℕ × PyDict)
    (swp : ℕ × SwFeature) (mr : MatchResult) (d' : ℚ)
    (h : match_fillet m cp swp = some (mr, d')) :
    mr.drawing_callout = some cp ∧ mr.sw_feature = some swp ∧
    (mr.status = .matched ∨ mr.status = .tolerance_fail) := by
  simp only [match_fillet] at h
  repeat' split at h
  all_goals try
    (simp only [Option.some.injEq, Prod.mk.injEq] at h
     rcases h with ⟨h1, -⟩
     subst h1
     simp)
  all_goals simp at h

/-- Any successful chamfer comparison carries both instances and a Matched or ToleranceFail status. -/
theorem match_chamfer_shape (m : FeatureMatcher) (cp : ℕ × PyDict)
    (swp : ℕ × SwFeature) (mr : MatchResult) (d' : ℚ)
    (h : match_chamfer m cp swp = some (mr, d')) :
    mr.drawing_callout = some cp ∧ mr.sw_feature = some swp ∧
    (mr.status = .matched ∨ mr.status = .tolerance_fail) := by
  simp only [match_chamfer] at h
  repeat' split at h
  all_goals try
    (simp only [Option.some.injEq, Prod.mk.injEq] at h
     rcases h with ⟨h1, -⟩
     subst h1
     simp)
  all_goals simp at h

/-- Any successful dispatch through the kind dispatcher carries both instances and a Matched or ToleranceFail status. -/
theorem try_match_shape (m : FeatureMatcher) (cp : ℕ × PyDict)
    (swp : ℕ × SwFeature) (t : String) (mr : MatchResult) (d' : ℚ)
    (h : try_match m cp swp t = some (mr, d')) :
    mr.drawing_callout = some cp ∧ mr.sw_feature = some swp ∧
    (mr.status = .matched ∨ mr.status = .tolerance_fail) := by
  simp only [try_match] at h
  repeat' split at h
  exacts [match_thread_shape _ _ _ _ _ h, match_hole_shape _ _ _ _ _ h,
    match_fillet_shape _ _ _ _ _ h, match_chamfer_shape _ _ _ _ _ h,
    by simp at h]

/-- Any successful cross-type equivalence comparison carries both instances and a Matched or ToleranceFail status. -/
theorem try_equiv_shape (cfg : Config) (cp : ℕ × PyDict)
    (swp : ℕ × SwFeature) (mr : MatchResult) (d' : ℚ)
    (h : try_equivalent_hole_tapped cfg cp swp = some (mr, d')) :
    mr.drawing_callout = some cp ∧ mr.sw_feature = some swp ∧
    (mr.status = .matched ∨ mr.status = .tolerance_fail) := by
  simp only [try_equivalent_hole_tapped] at h
  repeat' split at h
  all_goals try
    (simp only [Option.some.injEq, Prod.mk.injEq] at h
     rcases h with ⟨h1, -⟩
     subst h1
     simp)
  all_goals simp at h

/-- Fold induction with an explicit motive. -/
theorem foldl_preserve {α β : Type} (C : β → Prop) (op : β → α → β)
    (l : List α) (hstep : ∀ b, C b → ∀ a ∈ l, C (op b a)) (b : β) (hb : C b) :
    C (l.foldl op b) := by
  induction l generalizing b with
  | nil => exact hb
  | cons a t ih =>
    exact ih (fun b hb a2 ha2 => hstep b hb a2 (List.mem_cons_of_mem _ ha2))
      (op b a) (hstep b hb a (List.mem_cons_self _ _))

/-- Shape to statusShape. -/
theorem statusShape_of_both (mr : MatchResult) (cp : ℕ × PyDict)
    (swp : ℕ × SwFeature) (hdc : mr.drawing_callout = some cp)
    (hsf : mr.sw_feature = some swp)
    (hst : mr.status = .matched ∨ mr.status = .tolerance_fail) :
    statusShape mr = true := by
  rcases hst with h1 | h1 <;> simp [statusShape, h1, hdc, hsf]

/-- The best-candidate loop of a per-kind stage only returns a result built from the candidate callout and a not-yet-used feature of the pool, with both sides present and a well-shaped status. -/
theorem bestByType_spec (m : FeatureMatcher) (cp : ℕ × PyDict) (ct : String)
    (type_sw : List (ℕ × SwFeature)) (used : List ℕ) :
    ∀ mr d j, bestByType m cp ct type_sw used = some (mr, d, j) →
      calloutIdx mr = some cp.1 ∧ swFeatIdx mr = some j ∧ statusShape mr = true ∧
      used.contains j = false ∧ j ∈ type_sw.map Prod.fst := by
  unfold bestByType
  refine foldl_preserve
    (fun o => ∀ mr d j, o = some (mr, d, j) →
      calloutIdx mr = some cp.1 ∧ swFeatIdx mr = some j ∧ statusShape mr = true ∧
      used.contains j = false ∧ j ∈ type_sw.map Prod.fst)
    _ type_sw ?_ none ?_
  swap
  · intro mr d j h; simp at h
  intro b hb swp hsw mr d j h
  split at h
  · exact hb mr d j h
  · rename_i hused
    split at h
    · rename_i p heq
      obtain ⟨mr1, delta1⟩ := p
      split at h
      · split at h
        · simp only [Option.some.injEq, Prod.mk.injEq] at h
          obtain ⟨rfl, -, rfl⟩ := h
          obtain ⟨hdc, hsf, hst⟩ := try_match_shape _ _ _ _ _ _ heq
          exact ⟨by simp [calloutIdx, hdc], by simp [swFeatIdx, hsf],
            statusShape_of_both _ _ _ hdc hsf hst, by simpa using hused,
            List.mem_map.mpr ⟨swp, hsw, rfl⟩⟩
        · exact hb mr d j h
      · simp only [Option.some.injEq, Prod.mk.injEq] at h
        obtain ⟨rfl, -, rfl⟩ := h
        obtain ⟨hdc, hsf, hst⟩ := try_match_shape _ _ _ _ _ _ heq
        exact ⟨by simp [calloutIdx, hdc], by simp [swFeatIdx, hsf],
          statusShape_of_both _ _ _ hdc hsf hst, by simpa using hused,
          List.mem_map.mpr ⟨swp, hsw, rfl⟩⟩
    · exact hb mr d j h

/-- The best-candidate loop of the equivalence stage only returns a result built from the candidate callout and a not-yet-used feature of the pool, with both sides present and a well-shaped status. -/
theorem bestEquivalent_spec (cfg : Config) (cp : ℕ × PyDict)
    (candidate_sw : List (ℕ × SwFeature)) (used : List ℕ) :
    ∀ mr d j, bestEquivalent cfg cp candidate_sw used = some (mr, d, j) →
      calloutIdx mr = some cp.1 ∧ swFeatIdx mr = some j ∧ statusShape mr = true ∧
      used.contains j = false ∧ j ∈ candidate_sw.map Prod.fst := by
  unfold bestEquivalent
  refine foldl_preserve
    (fun o => ∀ mr d j, o = some (mr, d, j) →
      calloutIdx mr = some cp.1 ∧ swFeatIdx mr = some j ∧ statusShape mr = true ∧
      used.contains j = false ∧ j ∈ candidate_sw.map Prod.fst)
    _ candidate_sw ?_ none ?_
  swap
  · intro mr d j h; simp at h
  intro b hb swp hsw mr d j h
  split at h
  · exact hb mr d j h
  · rename_i hused
    split at h
    · exact hb mr d j h
    · split at h
      · rename_i p heq
        obtain ⟨mr1, score1⟩ := p
        split at h
        · split at h
          · simp only [Option.some.injEq, Prod.mk.injEq] at h
            obtain ⟨rfl, -, rfl⟩ := h
            obtain ⟨hdc, hsf, hst⟩ := try_equiv_shape _ _ _ _ _ heq
            exact ⟨by simp [calloutIdx, hdc], by simp [swFeatIdx, hsf],
              statusShape_of_both _ _ _ hdc hsf hst, by simpa using hused,
              List.mem_map.mpr ⟨swp, hsw, rfl⟩⟩
          · exact hb mr d j h
        · simp only [Option.some.injEq, Prod.mk.injEq] at h
          obtain ⟨rfl, -, rfl⟩ := h
          obtain ⟨hdc, hsf, hst⟩ := try_equiv_shape _ _ _ _ _ heq
          exact ⟨by simp [calloutIdx, hdc], by simp [swFeatIdx, hsf],
            statusShape_of_both _ _ _ hdc hsf hst, by simpa using hused,
            List.mem_map.mpr ⟨swp, hsw, rfl⟩⟩
      · exact hb mr d j h

/-- Count of a result list split across an append. -/
theorem countCallout_append (rs1 rs2 : List MatchResult) (i : ℕ) :
    countCallout (rs1 ++ rs2) i = countCallout rs1 i + countCallout rs2 i := by
  simp [countCallout, List.countP_append]

/-- Count of a result list split across an append (SW side). -/
theorem countSw_append (rs1 rs2 : List MatchResult) (j : ℕ) :
    countSw (rs1 ++ rs2) j = countSw rs1 j + countSw rs2 j := by
  simp [countSw, List.countP_append]

/-- Count of a one-result list. -/
theorem countCallout_single (mr : MatchResult) (i : ℕ) :
    countCallout [mr] i = if calloutIdx mr = some i then 1 else 0 := by
  by_cases h : calloutIdx mr = some i <;>
    simp [countCallout, List.countP_cons, h]

/-- Count of a one-result list (SW side). -/
theorem countSw_single (mr : MatchResult) (j : ℕ) :
    countSw [mr] j = if swFeatIdx mr = some j then 1 else 0 := by
  by_cases h : swFeatIdx mr = some j <;>
    simp [countSw, List.countP_cons, h]

/-- The greedy outer loop preserves the matching-state invariant, and every consumed callout index stems from the accumulator or the candidate list. -/
theorem greedyLoop_aux
    (bestF : (ℕ × PyDict) → List ℕ → Option (MatchResult × ℚ × ℕ))
    (Pc Pj : ℕ → Prop)
    (hbf : ∀ cp used mr s j, bestF cp used = some (mr, s, j) →
       calloutIdx mr = some cp.1 ∧ swFeatIdx mr = some j ∧ statusShape mr = true ∧
       used.contains j = false ∧ Pj j) :
    ∀ (cands : List (ℕ × PyDict)) (acc : List MatchResult × List ℕ × List ℕ),
      (cands.map Prod.fst).Nodup →
      (∀ cp ∈ cands, Pc cp.1 ∧ cp.1 ∉ acc.2.2) →
      MatchState Pc Pj acc →
      MatchState Pc Pj (cands.foldl (greedyStep bestF) acc) ∧
      ∀ x ∈ (cands.foldl (greedyStep bestF) acc).2.2,
        x ∈ acc.2.2 ∨ x ∈ cands.map Prod.fst := by
  intro cands
  induction cands with
  | nil => exact fun acc _ _ hinv => ⟨hinv, fun x hx => Or.inl hx⟩
  | cons cp t ih =>
    intro acc hnd hfresh hinv
    have hstep : MatchState Pc Pj (greedyStep bestF acc cp) ∧
        ∀ x ∈ (greedyStep bestF acc cp).2.2, x ∈ acc.2.2 ∨ x = cp.1 := by
      unfold greedyStep
      cases hb : bestF cp acc.2.1 with
      | none => exact ⟨hinv, fun x hx => Or.inl hx⟩
      | some v =>
        obtain ⟨mr, s, j⟩ := v
        obtain ⟨hci, hsi, hsh, hju, hPj⟩ := hbf cp acc.2.1 mr s j hb
        obtain ⟨a1, a2, a3, a4, a5, a6, a7⟩ := hinv
        have hjmem : j ∉ acc.2.1 := by simpa using hju
        have hcpf : cp.1 ∉ acc.2.2 := (hfresh cp (List.mem_cons_self _ _)).2
        refine ⟨⟨?_, ?_, ?_, ?_, ?_, ?_, ?_⟩, ?_⟩
        · intro i
          rw [countCallout_append, countCallout_single, a1, List.count_append]
          by_cases hic : cp.1 = i <;> simp [hci, hic, List.count_cons]
        · intro j2
          rw [countSw_append, countSw_single, a2, List.count_append]
          by_cases hjc : j = j2 <;> simp [hsi, hjc, List.count_cons]
        · simp [List.nodup_append, a3, List.disjoint_singleton, hcpf]
        · simp [List.nodup_append, a4, List.disjoint_singleton, hjmem]
        · intro i hi
          rcases List.mem_append.mp hi with h | h
          · exact a5 i h
          · exact (List.mem_singleton.mp h) ▸ (hfresh cp (List.mem_cons_self _ _)).1
        · intro j2 hj2
          rcases List.mem_append.mp hj2 with h | h
          · exact a6 j2 h
          · exact (List.mem_singleton.mp h) ▸ hPj
        · simp only [List.all_append, a7, Bool.true_and, List.all_cons,
            List.all_nil, Bool.and_true]
          exact hsh
        · intro x hx
          rcases List.mem_append.mp hx with h | h
          · exact Or.inl h
          · exact Or.inr (List.mem_singleton.mp h)
    obtain ⟨hs1, hs2⟩ := hstep
    have hnd' : ((cp :: t).map Prod.fst).Nodup := hnd
    rw [List.map_cons, List.nodup_cons] at hnd'
    have htail : ∀ cp2 ∈ t, Pc cp2.1 ∧ cp2.1 ∉ (greedyStep bestF acc cp).2.2 := by
      intro cp2 hcp2
      obtain ⟨hp, hnm⟩ := hfresh cp2 (List.mem_cons_of_mem _ hcp2)
      refine ⟨hp, fun hx => ?_⟩
      rcases hs2 _ hx with h | h
      · exact hnm h
      · exact hnd'.1 (h ▸ List.mem_map.mpr ⟨cp2, hcp2, rfl⟩)
    simp only [List.foldl_cons]
    have hrec := ih (greedyStep bestF acc cp) hnd'.2 htail hs1
    refine ⟨hrec.1, fun x hx => ?_⟩
    rcases hrec.2 x hx with h | h
    · rcases hs2 x h with h2 | h2
      · exact Or.inl h2
      · exact Or.inr (by simp [h2])
    · exact Or.inr (by simp; right; simpa using List.mem_map.mp h)

/-- The greedy outer loop started from the empty state satisfies the matching-state invariant. -/
theorem greedyLoop_spec
    (bestF : (ℕ × PyDict) → List ℕ → Option (MatchResult × ℚ × ℕ))
    (Pc Pj : ℕ → Prop)
    (hbf : ∀ cp used mr s j, bestF cp used = some (mr, s, j) →
       calloutIdx mr = some cp.1 ∧ swFeatIdx mr = some j ∧ statusShape mr = true ∧
       used.contains j = false ∧ Pj j)
    (cands : List (ℕ × PyDict)) (hnd : (cands.map Prod.fst).Nodup)
    (hPc : ∀ cp ∈ cands, Pc cp.1) :
    MatchState Pc Pj (greedyLoop bestF cands) := by
  unfold greedyLoop
  refine (greedyLoop_aux bestF Pc Pj hbf cands ([], [], []) hnd
    (fun cp hcp => ⟨hPc cp hcp, by simp⟩) ?_).1
  refine ⟨by simp [countCallout], by simp [countSw], by simp, by simp,
    by simp, by simp, by simp⟩

/-- An enumerated pair's index is below the list length. -/
theorem fst_lt_of_mem_enum {α : Type} {l : List α} {p : ℕ × α}
    (h : p ∈ l.enum) : p.1 < l.length := by
  have hm : p.1 ∈ l.enum.map Prod.fst := List.mem_map.mpr ⟨p, h, rfl⟩
  rw [List.enum_map_fst] at hm
  exact List.mem_range.mp hm

/-- Indices of a filtered enumeration are duplicate-free. -/
theorem nodup_map_fst_filter_enum {α : Type} (l : List α) (f : ℕ × α → Bool) :
    (((l.enum.filter f).map Prod.fst).Nodup) := by
  have hsub : List.Sublist ((l.enum.filter f).map Prod.fst)
      (l.enum.map Prod.fst) :=
    (List.filter_sublist _).map _
  rw [List.enum_map_fst] at hsub
  exact hsub.nodup (List.nodup_range _)

/-- One per-kind stage satisfies the matching-state invariant relative to its exclusion lists. -/
theorem match_by_type_spec (m : FeatureMatcher) (cs : List PyDict)
    (sws : List SwFeature) (ct : String) (excS excC : List ℕ) :
    MatchState (fun i => i < cs.length ∧ i ∉ excC)
      (fun j => j < sws.length ∧ j ∉ excS)
      (match_by_type m cs sws ct excS excC) := by
  unfold match_by_type
  refine greedyLoop_spec _ _ _ ?_ _ ?_ ?_
  · intro cp used mr s j hb
    obtain ⟨h1, h2, h3, h4, h5⟩ := bestByType_spec m cp ct _ used mr s j hb
    refine ⟨h1, h2, h3, h4, ?_⟩
    obtain ⟨swp, hswp, rfl⟩ := List.mem_map.mp h5
    have hmem := List.mem_of_mem_filter hswp
    have hpred := List.of_mem_filter hswp
    simp only [decide_eq_true_eq] at hpred
    refine ⟨fst_lt_of_mem_enum hmem, ?_⟩
    intro hmem2
    exact hpred.2 (by simpa using hmem2)
  · exact nodup_map_fst_filter_enum _ _
  · intro cp hcp
    have hmem := List.mem_of_mem_filter hcp
    have hpred := List.of_mem_filter hcp
    simp only [decide_eq_true_eq] at hpred
    refine ⟨fst_lt_of_mem_enum hmem, ?_⟩
    intro hmem2
    exact hpred.2 (by simpa using hmem2)

/-- The cross-type equivalence stage satisfies the matching-state invariant relative to its exclusion lists. -/
theorem match_hole_tapped_equivalents_spec (cfg : Config) (cs : List PyDict)
    (sws : List SwFeature) (excS excC : List ℕ) :
    MatchState (fun i => i < cs.length ∧ i ∉ excC)
      (fun j => j < sws.length ∧ j ∉ excS)
      (match_hole_tapped_equivalents cfg cs sws excS excC) := by
  unfold match_hole_tapped_equivalents
  refine greedyLoop_spec _ _ _ ?_ _ ?_ ?_
  · intro cp used mr s j hb
    obtain ⟨h1, h2, h3, h4, h5⟩ := bestEquivalent_spec cfg cp _ used mr s j hb
    refine ⟨h1, h2, h3, h4, ?_⟩
    obtain ⟨swp, hswp, rfl⟩ := List.mem_map.mp h5
    have hmem := List.mem_of_mem_filter hswp
    have hpred := List.of_mem_filter hswp
    simp only [decide_eq_true_eq] at hpred
    refine ⟨fst_lt_of_mem_enum hmem, ?_⟩
    intro hmem2
    exact hpred.1 (by simpa using hmem2)
  · exact nodup_map_fst_filter_enum _ _
  · intro cp hcp
    have hmem := List.mem_of_mem_filter hcp
    have hpred := List.of_mem_filter hcp
    simp only [decide_eq_true_eq] at hpred
    refine ⟨fst_lt_of_mem_enum hmem, ?_⟩
    intro hmem2
    exact hpred.1 (by simpa using hmem2)

/-- Appending a stage output whose used indices avoid the accumulator's
used indices preserves the matching-state invariant. -/
theorem matchState_extend (Pc Pj : ℕ → Prop)
    (acc stage : List MatchResult × List ℕ × List ℕ)
    (hacc : MatchState Pc Pj acc)
    (hst : MatchState (fun i => Pc i ∧ i ∉ acc.2.2)
      (fun j => Pj j ∧ j ∉ acc.2.1) stage) :
    MatchState Pc Pj
      (acc.1 ++ stage.1, acc.2.1 ++ stage.2.1, acc.2.2 ++ stage.2.2) := by
  obtain ⟨a1, a2, a3, a4, a5, a6, a7⟩ := hacc
  obtain ⟨b1, b2, b3, b4, b5, b6, b7⟩ := hst
  refine ⟨?_, ?_, ?_, ?_, ?_, ?_, ?_⟩
  · intro i
    simp only [countCallout_append, List.count_append, a1, b1]
  · intro j
    simp only [countSw_append, List.count_append, a2, b2]
  · exact List.Nodup.append a3 b3 (fun x hx hx2 => (b5 x hx2).2 hx)
  · exact List.Nodup.append a4 b4 (fun x hx hx2 => (b6 x hx2).2 hx)
  · intro i hi
    rcases List.mem_append.mp hi with h | h
    · exact a5 i h
    · exact (b5 i h).1
  · intro j hj
    rcases List.mem_append.mp hj with h | h
    · exact a6 j h
    · exact (b6 j h).1
  · simp only [List.all_append, a7, b7, Bool.and_self]

/-- The callout-side future-type skip loop preserves the invariant. -/
theorem skipC_loop_inv (csLen swsLen : ℕ) :
    ∀ (l : List (ℕ × PyDict)) (acc : List MatchResult × List ℕ × List ℕ),
      (∀ p ∈ l, p.1 < csLen) →
      MatchState (fun i => i < csLen) (fun j => j < swsLen) acc →
      MatchState (fun i => i < csLen) (fun j => j < swsLen)
        (l.foldl skipCalloutStep acc) := by
  intro l
  induction l with
  | nil => exact fun acc _ h => h
  | cons p t ih =>
    intro acc hb hinv
    simp only [List.foldl_cons]
    refine ih _ (fun q hq => hb q (List.mem_cons_of_mem _ hq)) ?_
    unfold skipCalloutStep
    split
    · rename_i hcond
      rw [Bool.and_eq_true] at hcond
      have hfresh : p.1 ∉ acc.2.2 := by simpa using hcond.1
      obtain ⟨a1, a2, a3, a4, a5, a6, a7⟩ := hinv
      refine ⟨?_, ?_, ?_, ?_, ?_, ?_, ?_⟩
      · intro i
        dsimp only
        rw [countCallout_append, countCallout_single, a1, List.count_append]
        by_cases hic : p.1 = i <;> simp [calloutIdx, hic, List.count_cons]
      · intro j
        dsimp only
        rw [countSw_append, countSw_single, a2]
        simp [swFeatIdx]
      · simp [List.nodup_append, a3, List.disjoint_singleton, hfresh]
      · exact a4
      · intro i hi
        rcases List.mem_append.mp hi with h | h
        · exact a5 i h
        · exact (List.mem_singleton.mp h) ▸ hb p (List.mem_cons_self _ _)
      · exact a6
      · simp only [List.all_append, a7, Bool.true_and, List.all_cons,
          List.all_nil, Bool.and_true]
        rfl
    · exact hinv

/-- The SW-side future-type skip loop preserves the invariant. -/
theorem skipS_loop_inv (csLen swsLen : ℕ) :
    ∀ (l : List (ℕ × SwFeature)) (acc : List MatchResult × List ℕ × List ℕ),
      (∀ p ∈ l, p.1 < swsLen) →
      MatchState (fun i => i < csLen) (fun j => j < swsLen) acc →
      MatchState (fun i => i < csLen) (fun j => j < swsLen)
        (l.foldl skipSwStep acc) := by
  intro l
  induction l with
  | nil => exact fun acc _ h => h
  | cons p t ih =>
    intro acc hb hinv
    simp only [List.foldl_cons]
    refine ih _ (fun q hq => hb q (List.mem_cons_of_mem _ hq)) ?_
    unfold skipSwStep
    split
    · rename_i hcond
      have hfresh : p.1 ∉ acc.2.1 := by simpa using hcond.1
      obtain ⟨a1, a2, a3, a4, a5, a6, a7⟩ := hinv
      refine ⟨?_, ?_, ?_, ?_, ?_, ?_, ?_⟩
      · intro i
        dsimp only
        rw [countCallout_append, countCallout_single, a1]
        simp [calloutIdx]
      · intro j
        dsimp only
        rw [countSw_append, countSw_single, a2, List.count_append]
        by_cases hjc : p.1 = j <;> simp [swFeatIdx, hjc, List.count_cons]
      · exact a3
      · simp [List.nodup_append, a4, List.disjoint_singleton, hfresh]
      · exact a5
      · intro j hj
        rcases List.mem_append.mp hj with h | h
        · exact a6 j h
        · exact (List.mem_singleton.mp h) ▸ hb p (List.mem_cons_self _ _)
      · simp only [List.all_append, a7, Bool.true_and, List.all_cons,
          List.all_nil, Bool.and_true]
        rfl
    · exact hinv

/-- Counting hits of one index in an enumeration, filtered by a predicate on
the index. -/
theorem countP_enumFrom_hit {α : Type} (q : ℕ → Bool) (j : ℕ) :
    ∀ (l : List α) (n : ℕ),
      (l.enumFrom n).countP (fun fp => fp.1 == j && q fp.1) =
        if n ≤ j ∧ j < n + l.length ∧ q j = true then 1 else 0 := by
  intro l
  induction l with
  | nil =>
    intro n
    simp only [List.enumFrom_nil, List.countP_nil, List.length_nil]
    rw [if_neg (by rintro ⟨h1, h2, -⟩; omega)]
  | cons a t ih =>
    intro n
    rw [List.enumFrom_cons, List.countP_cons, ih (n + 1)]
    by_cases hnj : n = j
    · subst hnj
      rw [if_neg (fun h => absurd h.1 (by omega))]
      simp only [beq_self_eq_true, Bool.true_and, Nat.zero_add]
      cases hq : q n
      · rw [if_neg (fun h => by simp [hq] at h)]
        simp [hq]
      · rw [if_pos (show n ≤ n ∧ n < n + (a :: t).length ∧ true = true from
          ⟨le_refl n, by simp only [List.length_cons]; omega, rfl⟩)]
        simp
    · have hb : ((n == j) && q n) = false := by simp [hnj]
      rw [hb]
      have hiff : (n + 1 ≤ j ∧ j < n + 1 + t.length ∧ q j = true) ↔
          (n ≤ j ∧ j < n + (a :: t).length ∧ q j = true) := by
        simp only [List.length_cons]
        constructor
        · rintro ⟨h1, h2, h3⟩; exact ⟨by omega, by omega, h3⟩
        · rintro ⟨h1, h2, h3⟩; exact ⟨by omega, by omega, h3⟩
      rw [if_congr hiff rfl rfl]
      simp

/-- The MISSING residual loop: it never touches callout counts, adds one
result for exactly the enumerated SW indices not yet used, and keeps all
results well-shaped. -/
theorem missing_loop_spec (cfg : Config) (cs : List PyDict)
    (sU2 cU2 : List ℕ) :
    ∀ (l : List (ℕ × SwFeature)) (results : List MatchResult),
      (∀ i, countCallout (l.foldl (missingStep cfg cs sU2 cU2) results) i =
        countCallout results i) ∧
      (∀ j, countSw (l.foldl (missingStep cfg cs sU2 cU2) results) j =
        countSw results j +
          l.countP (fun fp => fp.1 == j && !(sU2.contains fp.1))) ∧
      (results.all statusShape = true →
        (l.foldl (missingStep cfg cs sU2 cU2) results).all statusShape = true) := by
  intro l
  induction l with
  | nil => intro results; exact ⟨fun i => rfl, fun j => by simp, fun h => h⟩
  | cons fp t ih =>
    intro results
    simp only [List.foldl_cons, List.countP_cons]
    obtain ⟨ih1, ih2, ih3⟩ := ih (missingStep cfg cs sU2 cU2 results fp)
    by_cases hu : sU2.contains fp.1
    · have hstep : missingStep cfg cs sU2 cU2 results fp = results := by
        unfold missingStep
        rw [if_neg]
        simpa using hu
      rw [hstep] at ih1 ih2 ih3 ⊢
      refine ⟨ih1, fun j => ?_, ih3⟩
      rw [ih2 j]
      have hmem : fp.1 ∈ sU2 := by simpa using hu
      have : ((fp.1 == j) && !(sU2.contains fp.1)) = false := by
        simp [hmem]
      rw [this]
      simp
    · obtain ⟨r, hstep, hrc, hrs, hrsh⟩ :
          ∃ r : MatchResult, missingStep cfg cs sU2 cU2 results fp =
              results ++ [r] ∧ calloutIdx r = none ∧
              swFeatIdx r = some fp.1 ∧ statusShape r = true := by
        unfold missingStep
        rw [if_pos (by simpa using hu)]
        exact ⟨_, rfl, rfl, rfl, rfl⟩
      rw [hstep] at ih1 ih2 ih3 ⊢
      refine ⟨fun i => ?_, fun j => ?_, fun h => ?_⟩
      · rw [ih1, countCallout_append, countCallout_single, hrc]
        simp
      · rw [ih2, countSw_append, countSw_single, hrs]
        have hnm : fp.1 ∉ sU2 := by simpa using hu
        have hq : ((fp.1 == j) && !(sU2.contains fp.1)) = (fp.1 == j) := by
          simp [hnm]
        rw [hq]
        by_cases hj : fp.1 = j <;> simp [hj] <;> omega
      · refine ih3 ?_
        simp only [List.all_append, h, Bool.true_and, List.all_cons,
          List.all_nil, Bool.and_true]
        exact hrsh

/-- The EXTRA residual loop: it never touches SW counts, adds one result
for exactly the enumerated callout indices not yet used, and keeps all
results well-shaped. -/
theorem extra_loop_spec (cU2 : List ℕ) :
    ∀ (l : List (ℕ × PyDict)) (results : List MatchResult),
      (∀ j, countSw (l.foldl (extraStep cU2) results) j = countSw results j) ∧
      (∀ i, countCallout (l.foldl (extraStep cU2) results) i =
        countCallout results i +
          l.countP (fun cp => cp.1 == i && !(cU2.contains cp.1))) ∧
      (results.all statusShape = true →
        (l.foldl (extraStep cU2) results).all statusShape = true) := by
  intro l
  induction l with
  | nil => intro results; exact ⟨fun j => rfl, fun i => by simp, fun h => h⟩
  | cons cp t ih =>
    intro results
    simp only [List.foldl_cons, List.countP_cons]
    obtain ⟨ih1, ih2, ih3⟩ := ih (extraStep cU2 results cp)
    by_cases hu : cU2.contains cp.1
    · have hstep : extraStep cU2 results cp = results := by
        unfold extraStep
        rw [if_neg]
        simpa using hu
      rw [hstep] at ih1 ih2 ih3 ⊢
      refine ⟨ih1, fun i => ?_, ih3⟩
      rw [ih2 i]
      have hmem : cp.1 ∈ cU2 := by simpa using hu
      have : ((cp.1 == i) && !(cU2.contains cp.1)) = false := by
        simp [hmem]
      rw [this]
      simp
    · obtain ⟨r, hstep, hrc, hrs, hrsh⟩ :
          ∃ r : MatchResult, extraStep cU2 results cp = results ++ [r] ∧
              calloutIdx r = some cp.1 ∧ swFeatIdx r = none ∧
              statusShape r = true := by
        unfold extraStep
        rw [if_pos (by simpa using hu)]
        exact ⟨_, rfl, rfl, rfl, rfl⟩
      rw [hstep] at ih1 ih2 ih3 ⊢
      refine ⟨fun j => ?_, fun i => ?_, fun h => ?_⟩
      · rw [ih1, countSw_append, countSw_single, hrs]
        simp
      · rw [ih2, countCallout_append, countCallout_single, hrc]
        have hnm : cp.1 ∉ cU2 := by simpa using hu
        have hq : ((cp.1 == i) && !(cU2.contains cp.1)) = (cp.1 == i) := by
          simp [hnm]
        rw [hq]
        by_cases hi : cp.1 = i <;> simp [hi] <;> omega
      · refine ih3 ?_
        simp only [List.all_append, h, Bool.true_and, List.all_cons,
          List.all_nil, Bool.and_true]
        exact hrsh

/-- One same-kind stage preserves the pipeline invariant. -/
theorem typeStageStep_inv (m : FeatureMatcher) (cs : List PyDict)
    (sws : List SwFeature) (ct : String)
    (acc : List MatchResult × List ℕ × List ℕ)
    (h : MatchState (fun i => i < cs.length) (fun j => j < sws.length) acc) :
    MatchState (fun i => i < cs.length) (fun j => j < sws.length)
      (typeStageStep m cs sws acc ct) :=
  matchState_extend _ _ acc _ h (match_by_type_spec m cs sws ct acc.2.1 acc.2.2)

/-- The residual MISSING/EXTRA loops turn a pipeline-invariant state into a
result list in which every in-range index appears exactly once. -/
theorem residual_spec (cfg : Config) (cs : List PyDict) (sws : List SwFeature)
    (st : List MatchResult × List ℕ × List ℕ)
    (h : MatchState (fun i => i < cs.length) (fun j => j < sws.length) st) :
    (∀ i, countCallout (cs.enum.foldl (extraStep st.2.2)
        (sws.enum.foldl (missingStep cfg cs st.2.1 st.2.2) st.1)) i =
      if i < cs.length then 1 else 0) ∧
    (∀ j, countSw (cs.enum.foldl (extraStep st.2.2)
        (sws.enum.foldl (missingStep cfg cs st.2.1 st.2.2) st.1)) j =
      if j < sws.length then 1 else 0) ∧
    ((cs.enum.foldl (extraStep st.2.2)
        (sws.enum.foldl (missingStep cfg cs st.2.1 st.2.2) st.1)).all
      statusShape = true) := by
  obtain ⟨a1, a2, a3, a4, a5, a6, a7⟩ := h
  obtain ⟨m1, m2, m3⟩ := missing_loop_spec cfg cs st.2.1 st.2.2 sws.enum st.1
  obtain ⟨e1, e2, e3⟩ := extra_loop_spec st.2.2 cs.enum
    (sws.enum.foldl (missingStep cfg cs st.2.1 st.2.2) st.1)
  refine ⟨fun i => ?_, fun j => ?_, e3 (m3 a7)⟩
  · rw [e2 i, m1 i, a1 i,
      show cs.enum = cs.enumFrom 0 from rfl,
      countP_enumFrom_hit (fun x => !(st.2.2.contains x)) i cs 0]
    by_cases hi : i < cs.length
    · by_cases hmem : i ∈ st.2.2
      · rw [List.count_eq_one_of_mem a3 hmem,
          if_neg (by rintro ⟨-, -, hc⟩; simp [hmem] at hc), if_pos hi]
      · rw [List.count_eq_zero_of_not_mem hmem,
          if_pos ⟨Nat.zero_le i, by omega, by simp [hmem]⟩, if_pos hi]
    · have h0 : i ∉ st.2.2 := fun hmem => hi (a5 i hmem)
      rw [List.count_eq_zero_of_not_mem h0,
        if_neg (by rintro ⟨-, hlt, -⟩; omega), if_neg hi]
  · rw [e1 j, m2 j, a2 j,
      show sws.enum = sws.enumFrom 0 from rfl,
      countP_enumFrom_hit (fun x => !(st.2.1.contains x)) j sws 0]
    by_cases hj : j < sws.length
    · by_cases hmem : j ∈ st.2.1
      · rw [List.count_eq_one_of_mem a4 hmem,
          if_neg (by rintro ⟨-, -, hc⟩; simp [hmem] at hc), if_pos hj]
      · rw [List.count_eq_zero_of_not_mem hmem,
          if_pos ⟨Nat.zero_le j, by omega, by simp [hmem]⟩, if_pos hj]
    · have h0 : j ∉ st.2.1 := fun hmem => hj (a6 j hmem)
      rw [List.count_eq_zero_of_not_mem h0,
        if_neg (by rintro ⟨-, hlt, -⟩; omega), if_neg hj]

/-- The optional cross-type equivalence stage preserves the invariant. -/
theorem eqStage_inv (cfg : Config) (cs : List PyDict) (sws : List SwFeature)
    (acc : List MatchResult × List ℕ × List ℕ)
    (h : MatchState (fun i => i < cs.length) (fun j => j < sws.length) acc) :
    MatchState (fun i => i < cs.length) (fun j => j < sws.length)
      (if cfg.match_hole_tapped_equivalence then
        (acc.1 ++ (match_hole_tapped_equivalents cfg cs sws acc.2.1 acc.2.2).1,
         acc.2.1 ++ (match_hole_tapped_equivalents cfg cs sws acc.2.1 acc.2.2).2.1,
         acc.2.2 ++ (match_hole_tapped_equivalents cfg cs sws acc.2.1 acc.2.2).2.2)
      else acc) := by
  split
  · exact matchState_extend _ _ acc _ h
      (match_hole_tapped_equivalents_spec cfg cs sws _ _)
  · exact h

/-- C1: amended claim.  For every pair of input lists, `match_all` returns a
list of MatchResults in which every callout instance (an index below the
callout-list length) and every SW requirement instance appears in exactly
one MatchResult, and the presence pattern follows the status: both sides
present for Matched/ToleranceFail, only the requirement for Missing, only
the callout for Extra — but a Skipped result carries exactly ONE side (the
skipped future-type callout or the skipped future-type SW feature), never
both as the original claim demands. -/
theorem match_all_exclusive (cfg : Config) (m : FeatureMatcher)
    (cs : List PyDict) (sws : List SwFeature) :
    (∀ i, countCallout (match_all cfg m cs sws) i =
      if i < cs.length then 1 else 0) ∧
    (∀ j, countSw (match_all cfg m cs sws) j =
      if j < sws.length then 1 else 0) ∧
    (match_all cfg m cs sws).all statusShape = true := by
  have hinit : MatchState (fun i => i < cs.length) (fun j => j < sws.length)
      (([], [], []) : List MatchResult × List ℕ × List ℕ) :=
    ⟨fun i => rfl, fun j => rfl, List.nodup_nil, List.nodup_nil,
     by simp, by simp, rfl⟩
  have h1 := typeStageStep_inv m cs sws "TappedHole" _ hinit
  have h2 := typeStageStep_inv m cs sws "Hole" _ h1
  have h3 := typeStageStep_inv m cs sws "Fillet" _ h2
  have h4 := typeStageStep_inv m cs sws "Chamfer" _ h3
  have h5 := eqStage_inv cfg cs sws _ h4
  have h6 := skipC_loop_inv cs.length sws.length cs.enum _
    (fun p hp => fst_lt_of_mem_enum hp) h5
  have h7 := skipS_loop_inv cs.length sws.length sws.enum _
    (fun p hp => fst_lt_of_mem_enum hp) h6
  exact residual_spec cfg cs sws _ h7

/-- C1 counterexample: one future-type ("Slot") drawing callout matched
against an empty SW feature list yields exactly one MatchResult, whose
status is Skipped and whose `sw_feature` side is absent — contradicting the
claim that both sides are present whenever the status is Skipped. -/
theorem match_all_skipped_one_sided :
    ((match_all default_config defaultMatcher
        [[("calloutType", Val.vstr "Slot")]] []).map
      (fun r => (r.status, r.drawing_callout.isSome, r.sw_feature.isSome))) =
      [(MatchStatus.skipped, true, false)] := by
  with_unfolding_all exact of_decide_eq_true rfl

end Insp
